import Mathlib

/-!
# A shallow embedding of the toy-js-engine parser and evaluator

This file translates the Rust sources of the toy scripting-language engine
(`src/lexer.rs` token shape, `src/ast.rs`, `src/environment.rs`,
`src/function.rs`, `src/interpreter/visitor.rs`, `src/interpreter/operators.rs`,
`src/interpreter/errors.rs`, `src/parser.rs`) into Lean definitions and proves
properties of the translated code.

Modelling conventions:

* Rust `f64` is modelled by `F64`, an unreduced fraction `num / den` with
  `den > 0` maintained by every operation.  Every numeric computation the
  claims exercise stays inside the integers (where `f64` arithmetic is exact),
  so the rational model agrees with the Rust semantics there.  The genuine
  model boundaries are marked at the few operations where `f64` leaves the
  rationals (division by zero produces an infinity, `powf` with a
  non-integral exponent, decimal rendering of non-integral values); each such
  spot carries a comment and no claim depends on the value produced there.
* Rust `HashMap` fields are modelled as association lists whose `insert`
  replaces an existing binding in place, and Rust `HashSet<String>` as a
  duplicate-free list.  `HashSet` iteration order is unspecified in Rust; the
  list model fixes one order, and the one fold over such a set
  (`merge_child_env`) acts on distinct keys, so the choice is immaterial.
* Every Rust loop or recursion that is not structurally decreasing is given a
  `Nat` fuel argument; `none` means the computation did not finish within the
  given fuel (in particular an infinite Rust loop is `none` for every fuel).
* Rust `Result<T, String>` is `Except String T`, `Option` is `Option`.
-/

namespace ToyJs

/-! ## The numeric model of `f64` -/

/-- Exact-rational model of Rust `f64`: the fraction `num / den`.
The operations below keep `den` positive; fractions are not reduced, so
numeric equality is the cross-multiplication test `f64_eq`, not structural
equality.  All integer-valued arithmetic (the only arithmetic the claims
exercise) is exact in `f64` and is modelled exactly here. -/
structure F64 where
  num : Int
  den : Nat
deriving DecidableEq

def F64.ofInt (i : Int) : F64 := ⟨i, 1⟩

def F64.add (x y : F64) : F64 := ⟨x.num * y.den + y.num * x.den, x.den * y.den⟩

def F64.sub (x y : F64) : F64 := ⟨x.num * y.den - y.num * x.den, x.den * y.den⟩

def F64.mul (x y : F64) : F64 := ⟨x.num * y.num, x.den * y.den⟩

/-- Multiplicative inverse; `1 / 0` is an infinity in `f64`, which has no
rational counterpart — the `0` returned there is a model boundary and no
claim relies on the value (only on the fact that no error is raised). -/
def F64.inv (x : F64) : F64 :=
  if x.num = 0 then ⟨0, 1⟩
  else if x.num < 0 then ⟨-(x.den : Int), x.num.natAbs⟩
  else ⟨(x.den : Int), x.num.natAbs⟩

/-- Rust `l / r` on `f64`.  For `r = 0` real `f64` yields `±inf` or `NaN`;
the model returns `0` there (model boundary, see `F64.inv`). -/
def F64.div (x y : F64) : F64 := x.mul y.inv

/-- `f64` comparison `x < y` (valid because `den` is kept positive). -/
def F64.lt (x y : F64) : Bool := x.num * y.den < y.num * x.den

/-- `f64` equality `x == y` by cross multiplication. -/
def f64_eq (x y : F64) : Bool := x.num * y.den = y.num * x.den

def F64.abs (x : F64) : F64 := ⟨(x.num.natAbs : Int), x.den⟩

/-- Rust `f64::EPSILON = 2 ^ (-52)`. -/
def f64_EPSILON : F64 := ⟨1, 2 ^ 52⟩

/-- Rust `l.powf(r)`.  For an integral exponent the `f64` result is exact and
modelled exactly; for a non-integral exponent the real result is in general
irrational and the `0` returned is a model boundary (no claim uses it). -/
def F64.powf (b e : F64) : F64 :=
  if e.num % (e.den : Int) = 0 then
    let n : Int := e.num / (e.den : Int)
    if 0 ≤ n then ⟨b.num ^ n.natAbs, b.den ^ n.natAbs⟩
    else
      let i := b.inv
      ⟨i.num ^ n.natAbs, i.den ^ n.natAbs⟩
  else ⟨0, 1⟩

/-- Truncation of `x` toward zero (`Int.div` is T-division, as in Rust). -/
def F64.trunc (x : F64) : Int := Int.tdiv x.num (x.den : Int)

/-- Rust `l % r` on `f64`: the truncated remainder `l - r * trunc (l / r)`.
`l % 0` is `NaN` in `f64`; the model returns `0` there (model boundary,
unexercised by the claims). -/
def F64.rem (x y : F64) : F64 :=
  if y.num = 0 then ⟨0, 1⟩
  else x.sub (y.mul ⟨(x.div y).trunc, 1⟩)

/-! ## Decimal strings -/

/-- Digit character for `n < 10`. -/
def digitChar (n : Nat) : Char := Char.ofNat (48 + n)

def natReprAux : Nat → Nat → List Char → List Char
  | 0, _, acc => acc
  | fuel + 1, n, acc =>
    if n < 10 then digitChar n :: acc
    else natReprAux fuel (n / 10) (digitChar (n % 10) :: acc)

/-- Decimal rendering of a `Nat` (Rust `{}` formatting of an integer). -/
def natRepr (n : Nat) : String := String.mk (natReprAux (n + 1) n [])

/-- Decimal rendering of an `Int`. -/
def intRepr (i : Int) : String :=
  if i < 0 then "-" ++ natRepr i.natAbs else natRepr i.natAbs

def digitVal (c : Char) : Nat := c.toNat - 48

def digitsToNat (cs : List Char) : Nat :=
  cs.foldl (fun acc c => acc * 10 + digitVal c) 0

/-- Core of the Rust `str::parse::<f64>` grammar on an unsigned body:
`D+ | D+ . D* | D* . D+`.  The exotic forms Rust also accepts
(`inf`, `nan`, exponent notation) are outside the fragment any claim
exercises and outside this model; every string the program's claims parse
or fail to parse (`"5"`, `"apple"`, `"undefined"`, …) is decided identically
by Rust and by this model. -/
def parse_f64_body (cs : List Char) : Option F64 :=
  let intPart := cs.takeWhile Char.isDigit
  let rest := cs.dropWhile Char.isDigit
  match rest with
  | [] => if intPart.isEmpty then none else some ⟨(digitsToNat intPart : Int), 1⟩
  | '.' :: fracCs =>
    let fracPart := fracCs.takeWhile Char.isDigit
    let rest2 := fracCs.dropWhile Char.isDigit
    if rest2.isEmpty ∧ ¬(intPart.isEmpty ∧ fracPart.isEmpty) then
      some ⟨(digitsToNat intPart * 10 ^ fracPart.length + digitsToNat fracPart : Int),
            10 ^ fracPart.length⟩
    else none
  | _ => none

/-- Model of Rust `s.parse::<f64>()` (an optional sign, then `parse_f64_body`);
`none` is Rust's `Err(ParseFloatError)`. -/
def parse_f64 (s : String) : Option F64 :=
  match s.data with
  | '+' :: rest => parse_f64_body rest
  | '-' :: rest => (parse_f64_body rest).map (fun q => ⟨-q.num, q.den⟩)
  | cs => parse_f64_body cs

/-- Rendering of an `F64` value (Rust `f64::to_string`).  The integral case —
the only one any claim exercises — is rendered exactly as Rust does; a
non-integral value is rendered as a fraction, a model boundary where Rust
would print decimal notation. -/
def f64_to_string (q : F64) : String :=
  let g := Nat.gcd q.num.natAbs q.den
  let n : Int := Int.tdiv q.num (g : Int)
  let d : Nat := q.den / g
  if d = 1 then intRepr n else intRepr n ++ "/" ++ natRepr d

/-! ## `ExpressionResult` and its coercions (src/ast.rs) -/

/-- Lean's `String` under a second name, usable in signatures that live in
namespaces containing a `String` constructor of their own. -/
abbrev Str := String

/-- `ExpressionResult` — the runtime value union (src/ast.rs). -/
inductive ExpressionResult where
  | Number (val : F64)
  | String (val : String)
  | Boolean (val : Bool)
  | Undefined
deriving DecidableEq

/-- `ExpressionResult::coerce_to_bool` (src/ast.rs). -/
def ExpressionResult.coerce_to_bool : ExpressionResult → Bool
  | .Boolean val => val
  | .Number val => ¬ f64_eq val (F64.ofInt 0)
  | .String val => val.length > 0
  | .Undefined => false

/-- `ExpressionResult::coerce_to_number` (src/ast.rs); `none` is
`Err(ParseFloatError)`.  The `Undefined` arm parses the literal text
`"undefined"`, exactly as the Rust code does (it always fails). -/
def ExpressionResult.coerce_to_number : ExpressionResult → Option F64
  | .Boolean val => if val then some (F64.ofInt 1) else some (F64.ofInt 0)
  | .Number val => some val
  | .String val => parse_f64 val
  | .Undefined => parse_f64 "undefined"

/-- `ExpressionResult::coerce_to_string` (src/ast.rs). -/
def ExpressionResult.coerce_to_string : ExpressionResult → Str
  | .Boolean val => if val then "true" else "false"
  | .Number val => f64_to_string val
  | .String val => val
  | .Undefined => "undefined"

def ExpressionResult.isString : ExpressionResult → Bool
  | .String _ => true
  | _ => false

def ExpressionResult.isBoolean : ExpressionResult → Bool
  | .Boolean _ => true
  | _ => false

def ExpressionResult.isNumber : ExpressionResult → Bool
  | .Number _ => true
  | _ => false

/-! ## The AST (src/ast.rs) -/

/-- `Operator` (src/ast.rs). -/
inductive Operator where
  | Add
  | Subtract
  | Multiply
  | Divide
  | Equal
  | LessThan
  | GreaterThan
  | And
  | Or
  | Exponentiation
  | Modulo
deriving DecidableEq

/-- `PrefixOperator` (src/ast.rs). -/
inductive PrefixOperator where
  | Increment
  | Decrement
  | Negative
  | Positive
  | Not
deriving DecidableEq

/-- `Expression` (src/ast.rs).  The `Prefix` constructor is named
`PrefixExpr` here solely because of a lexical restriction on names in this
development; it is the source's `Expression::Prefix`. -/
inductive Expression where
  | NumberLiteral (n : F64)
  | Boolean (b : Bool)
  | Identifier (name : String)
  | String (s : String)
  | PrefixExpr (op : PrefixOperator) (e : Expression)
  | Operation (left : Expression) (op : Operator) (right : Expression)
  | Assignment (left : Expression) (right : Expression)
  | Call (callee : Expression) (arguments : List Expression)

/-- `Statement` (src/ast.rs).  `Block` (a struct owning a `Vec<Statement>`)
is transcribed transparently as `List Statement`. -/
inductive Statement where
  | Let (name : String) (e : Expression)
  | FunctionDeclaration (name : String) (arguments : List Expression)
      (block : List Statement)
  | ConditionalStatement (cond : Expression) (block : List Statement)
      (elseBranch : Option Statement)
  | ExpressionStatement (e : Expression)
  | ReturnStatement (e : Option Expression)
  | While (inner : Statement)

/-- `Block` (src/ast.rs): an ordered, owned sequence of statements. -/
abbrev Block := List Statement

/-! ## `Token` (the lexer's output shape; spec §6, src/lexer.rs) -/

/-- `Token` — the lexical units consumed by the parser.  The lexer itself is
an external collaborator (spec §6); the enumeration here is the one the
parser pattern-matches on. -/
inductive Token where
  | Let
  | Function
  | Return
  | If
  | Else
  | While
  | Ident (name : String)
  | Number (n : F64)
  | Boolean (b : Bool)
  | String (s : String)
  | Plus
  | Minus
  | Star
  | Slash
  | Percent
  | Equals
  | ExclamationMark
  | LeftChevron
  | RightChevron
  | Ampersand
  | Pipe
  | Semicolon
  | Comma
  | NewLine
  | LeftParen
  | RightParen
  | LeftCurlyBrace
  | RightCurlyBrace
  | DoubleQuote
  | EOF
deriving DecidableEq

/-! ## Error types (src/interpreter/errors.rs) -/

/-- Model of the Rust `{:#?}` debug rendering of a `Token`, used only inside
`SyntaxErrorKind::UnexpectedToken` messages (strings no claim inspects: the
claims compare parser errors structurally and the evaluator never builds an
`UnexpectedToken`).  Payload-carrying variants are rendered on one line, a
model boundary relative to Rust's multi-line pretty debug output. -/
def tokenDebugName : Token → String
  | .Let => "Let"
  | .Function => "Function"
  | .Return => "Return"
  | .If => "If"
  | .Else => "Else"
  | .While => "While"
  | .Ident name => "Ident(" ++ name ++ ")"
  | .Number n => "Number(" ++ f64_to_string n ++ ")"
  | .Boolean b => "Boolean(" ++ (if b then "true" else "false") ++ ")"
  | .String s => "String(" ++ s ++ ")"
  | .Plus => "Plus"
  | .Minus => "Minus"
  | .Star => "Star"
  | .Slash => "Slash"
  | .Percent => "Percent"
  | .Equals => "Equals"
  | .ExclamationMark => "ExclamationMark"
  | .LeftChevron => "LeftChevron"
  | .RightChevron => "RightChevron"
  | .Ampersand => "Ampersand"
  | .Pipe => "Pipe"
  | .Semicolon => "Semicolon"
  | .Comma => "Comma"
  | .NewLine => "NewLine"
  | .LeftParen => "LeftParen"
  | .RightParen => "RightParen"
  | .LeftCurlyBrace => "LeftCurlyBrace"
  | .RightCurlyBrace => "RightCurlyBrace"
  | .DoubleQuote => "DoubleQuote"
  | .EOF => "EOF"

/-- `SyntaxErrorKind` (src/interpreter/errors.rs).  The
`InvalidLeftSidePrefix` variant is named `InvalidLeftSidePrefixOp` here
solely because of a lexical restriction on names in this development. -/
inductive SyntaxErrorKind where
  | LeftSideAssignmentMustBeIdentifier
  | InvalidLeftSidePrefixOp
  | UnexpectedToken (token : Token)
  | UnexpectedIdentifier (name : String)
deriving DecidableEq

/-- `SyntaxErrorKind::to_string` (src/interpreter/errors.rs). -/
def SyntaxErrorKind.to_string : SyntaxErrorKind → Str
  | .LeftSideAssignmentMustBeIdentifier =>
    "Left side of assignment must be identifier"
  | .InvalidLeftSidePrefixOp =>
    "Invalid left-hand side expression in prefix operation"
  | .UnexpectedToken token =>
    "Unexpected token " ++ "'" ++ tokenDebugName token ++ "'"
  | .UnexpectedIdentifier name =>
    "Unexpected identifier " ++ "'" ++ name ++ "'"

/-- `InterpreterErrorKind` (src/interpreter/errors.rs). -/
inductive InterpreterErrorKind where
  | ReferenceError (name : String)
  | SyntaxError (kind : Option SyntaxErrorKind)
  | NaN
  | DivisionByZero
deriving DecidableEq

/-- `InterpreterError::to_string` (src/interpreter/errors.rs): the `String`
the evaluator actually returns in its `Err` channel.  Note that
`DivisionByZero` renders as `"Infinity"`. -/
def InterpreterErrorKind.to_string : InterpreterErrorKind → Str
  | .ReferenceError name => "Uncaught ReferenceError: " ++ name ++ " is not defined"
  | .SyntaxError (some k) => "Uncaught SyntaxError: " ++ k.to_string
  | .SyntaxError none => "Uncaught SyntaxError"
  | .NaN => "NaN"
  | .DivisionByZero => "Infinity"

/-! ## Association-list model of `HashMap` / `HashSet` -/

/-- `HashMap::get`. -/
def lookupA {α : Type} : List (String × α) → String → Option α
  | [], _ => none
  | (k, v) :: rest, key => if k = key then some v else lookupA rest key

/-- `HashMap::insert`: replace the binding in place, or append a new one. -/
def insertA {α : Type} : List (String × α) → String → α → List (String × α)
  | [], key, val => [(key, val)]
  | (k, v) :: rest, key, val =>
    if k = key then (key, val) :: rest else (k, v) :: insertA rest key val

/-- `HashSet::insert` on a duplicate-free list: add the key if absent. -/
def insertS : List String → String → List String
  | l, key => if key ∈ l then l else l ++ [key]

/-! ## `Function` (src/function.rs) and `Environment` (src/environment.rs) -/

/-- `Function` (src/function.rs): formal parameter expressions plus a body. -/
structure Function where
  arguments : List Expression
  block : Block

/-- `Environment` (src/environment.rs).  The source field `variables` (a name
reserved in Lean) is transcribed as `vars`; it maps a name to
`(inherited, value)`. -/
structure Environment where
  vars : List (String × Bool × ExpressionResult)
  functions : List (String × Function)
  modified_inherited_variables : List String

/-- `Environment::new`. -/
def Environment.new : Environment := ⟨[], [], []⟩

/-- `Environment::get_variable`. -/
def Environment.get_variable (env : Environment) (identifier : String) :
    Option ExpressionResult :=
  match lookupA env.vars identifier with
  | some (_, value) => some value
  | none => none

/-- `Environment::define_variable`: always inserts a binding marked
`inherited = false`. -/
def Environment.define_variable (env : Environment) (identifier : String)
    (value : ExpressionResult) : Environment :=
  { env with vars := insertA env.vars identifier (false, value) }

/-- `Environment::is_variable_greater_scope`. -/
def Environment.is_variable_greater_scope (env : Environment)
    (identifier : String) : Bool :=
  match lookupA env.vars identifier with
  | some (inherited, _) => inherited
  | none => false

/-- `Environment::set_variable`: record the name in
`modified_inherited_variables` when the current binding is inherited, then
insert `(inherited, value)`. -/
def Environment.set_variable (env : Environment) (identifier : String)
    (value : ExpressionResult) : Environment :=
  let inherited := env.is_variable_greater_scope identifier
  let modified :=
    if inherited then insertS env.modified_inherited_variables identifier
    else env.modified_inherited_variables
  { env with
    vars := insertA env.vars identifier (inherited, value),
    modified_inherited_variables := modified }

/-- `Environment::has_variable`. -/
def Environment.has_variable (env : Environment) (identifier : String) : Bool :=
  (lookupA env.vars identifier).isSome

/-- `Environment::get_function`. -/
def Environment.get_function (env : Environment) (identifier : String) :
    Option Function :=
  lookupA env.functions identifier

/-- `Environment::set_function`. -/
def Environment.set_function (env : Environment) (identifier : String)
    (value : Function) : Environment :=
  { env with functions := insertA env.functions identifier value }

/-- `Environment::has_function`. -/
def Environment.has_function (env : Environment) (identifier : String) : Bool :=
  (lookupA env.functions identifier).isSome

/-- `Environment::create_child_env`: clone the whole environment (including
`modified_inherited_variables`, which `clone` copies too) and mark every
copied variable `inherited = true`. -/
def Environment.create_child_env (env : Environment) : Environment :=
  { env with
    vars := env.vars.map (fun kv => (kv.1, (true, kv.2.2))) }

/-- The loop body of `Environment::merge_child_env`: copy the child's
current value for one name into the accumulator via `set_variable`
(skipping a name the child has no value for, per the `if let Some` in the
source). -/
def merge_write (child acc : Environment) (identifier : String) : Environment :=
  match child.get_variable identifier with
  | some result => acc.set_variable identifier result
  | none => acc

/-- `Environment::merge_child_env`: for every name in the child's
`modified_inherited_variables`, copy the child's current value for that name
back into the parent via `set_variable`. -/
def Environment.merge_child_env (env : Environment) (child : Environment) :
    Environment :=
  child.modified_inherited_variables.foldl (merge_write child) env

/-! ## Operator strategies (src/interpreter/operators.rs)

The strategy layer (`BinaryOperator` trait, `get_operator_strategy`) exists in
the source but is never invoked by the evaluator, whose
`handle_operation_expression` inlines its own versions of the operator logic.
The two strategies cited by the claims are transcribed here; all strategies
are uncalled (dead) code in the program. -/

/-- `AddOperator::apply` (src/interpreter/operators.rs). -/
def AddOperator.apply (left right : ExpressionResult) (_env : Environment) :
    Except String ExpressionResult :=
  if left.isString || right.isString then
    .ok (.String (left.coerce_to_string ++ right.coerce_to_string))
  else
    match left.coerce_to_number, right.coerce_to_number with
    | some l, some r => .ok (.Number (l.add r))
    | _, _ => .error InterpreterErrorKind.NaN.to_string

/-- `DivideOperator::apply` (src/interpreter/operators.rs): numeric division
raising `DivisionByZero` when the coerced divisor's absolute value is below
`f64::EPSILON`, and `NaN` when either side fails to coerce. -/
def DivideOperator.apply (left right : ExpressionResult) (_env : Environment) :
    Except String ExpressionResult :=
  match left.coerce_to_number, right.coerce_to_number with
  | some l, some r =>
    if r.abs.lt f64_EPSILON then .error InterpreterErrorKind.DivisionByZero.to_string
    else .ok (.Number (l.div r))
  | _, _ => .error InterpreterErrorKind.NaN.to_string

/-! ## The evaluator (src/interpreter/visitor.rs, src/function.rs)

`visit_expression e env` is Rust's `e.accept(&mut evaluator)` for an evaluator
holding `env`; it returns the `Result<ExpressionResult, String>` together with
the mutated environment.  `visit_statement` likewise returns the
`Option<ExpressionResult>` return-bubble together with the mutated
environment.  The extra leading `Nat` is fuel (see the header); every Rust
call is modelled with fuel one smaller, so `none` means the computation needs
more fuel (or, for every fuel, that it does not terminate). -/

/-- `Evaluator::modify_variable_and_return_new_value`
(src/interpreter/visitor.rs): read-coerce-modify-write a binding by `±1`. -/
def modify_variable_and_return_new_value (operator : PrefixOperator)
    (identifier : String) (env : Environment) :
    Except String ExpressionResult × Environment :=
  match env.get_variable identifier with
  | some previous_value =>
    match previous_value.coerce_to_number with
    | some previous_value_as_number =>
      let new : ExpressionResult :=
        if operator = .Decrement then
          .Number (previous_value_as_number.sub (F64.ofInt 1))
        else
          .Number (previous_value_as_number.add (F64.ofInt 1))
      (.ok new, env.set_variable identifier new)
    | none => (.error InterpreterErrorKind.NaN.to_string, env)
  | none =>
    (.error (InterpreterErrorKind.ReferenceError identifier).to_string, env)

/-- Modelled from the spec: the hoisting pre-pass of `process_statements`
(the function itself lives in the interpreter module file that is absent from
the sources).  "Before executing a statement sequence, all
`FunctionDeclaration` statements are extracted, registered in the
environment, and removed from the sequence." -/
def hoist_functions : List Statement → Environment → List Statement × Environment
  | [], env => ([], env)
  | .FunctionDeclaration name arguments block :: rest, env =>
    hoist_functions rest (env.set_function name ⟨arguments, block⟩)
  | s :: rest, env =>
    let (r, env1) := hoist_functions rest env
    (s :: r, env1)

/-- `Function`'s arity-mismatch message (src/function.rs), including the
source's spelling of "recieved". -/
def arity_mismatch_message (expected got : Nat) : String :=
  "Argument mismatch, function expected " ++ natRepr expected ++
    " arguments, recieved " ++ natRepr got

mutual

/-- `Evaluator::visit_expression` (src/interpreter/visitor.rs). -/
def visit_expression : Nat → Expression → Environment →
    Option (Except String ExpressionResult × Environment)
  | 0, _, _ => none
  | fuel + 1, e, env =>
    match e with
    | .NumberLiteral n => some (.ok (.Number n), env)
    | .Identifier identifier =>
      match env.get_variable identifier with
      | some value => some (.ok value, env)
      | none =>
        some (.error (InterpreterErrorKind.ReferenceError identifier).to_string,
              env)
    | .Boolean is_true =>
      if is_true then some (.ok (.Boolean true), env)
      else some (.ok (.Boolean false), env)
    | .String string => some (.ok (.String string), env)
    | .PrefixExpr operator expression =>
      handle_prefix_expression fuel operator expression env
    | .Operation left_hand operator right_hand =>
      handle_operation_expression fuel left_hand operator right_hand env
    | .Assignment left_hand right_hand =>
      match left_hand with
      | .Identifier identifier =>
        if env.has_variable identifier then
          match visit_expression fuel right_hand env with
          | none => none
          | some (.ok value, env1) =>
            some (.ok value, env1.set_variable identifier value)
          | some (.error err, env1) => some (.error err, env1)
        else
          some (.error (InterpreterErrorKind.ReferenceError identifier).to_string,
                env)
      | _ =>
        some (.error (InterpreterErrorKind.SyntaxError
                (some .LeftSideAssignmentMustBeIdentifier)).to_string, env)
    | .Call callee arguments =>
      match callee with
      | .Identifier identifier =>
        match env.get_function identifier with
        | some function => Function.call fuel function arguments env
        | none =>
          some (.error ("Function " ++ identifier ++ " not defined"), env)
      | _ => some (.error "Either not implemented or not valid", env)

/-- `Evaluator::handle_operation_expression` (src/interpreter/visitor.rs).
Note that the `Divide` arm performs a plain division with no
division-by-zero check, and that the `Exponentiation` arm evaluates the
right operand before the left one, both exactly as in the source. -/
def handle_operation_expression : Nat → Expression → Operator → Expression →
    Environment → Option (Except String ExpressionResult × Environment)
  | 0, _, _, _, _ => none
  | fuel + 1, left_hand, operator, right_hand, env =>
    match operator with
    | .And | .Or =>
      handle_and_or_with_short_circuiting fuel left_hand operator right_hand env
    | .LessThan | .GreaterThan =>
      handle_comparators fuel left_hand operator right_hand env
    | .Multiply | .Divide | .Subtract | .Modulo =>
      match visit_expression fuel left_hand env with
      | none => none
      | some (.error _, env1) =>
        some (.error InterpreterErrorKind.NaN.to_string, env1)
      | some (.ok left_result, env1) =>
        match visit_expression fuel right_hand env1 with
        | none => none
        | some (.error _, env2) =>
          some (.error InterpreterErrorKind.NaN.to_string, env2)
        | some (.ok right_result, env2) =>
          match left_result.coerce_to_number, right_result.coerce_to_number with
          | some left_as_num, some right_as_num =>
            if operator = .Multiply then
              some (.ok (.Number (left_as_num.mul right_as_num)), env2)
            else if operator = .Divide then
              some (.ok (.Number (left_as_num.div right_as_num)), env2)
            else if operator = .Subtract then
              some (.ok (.Number (left_as_num.sub right_as_num)), env2)
            else
              some (.ok (.Number (left_as_num.rem right_as_num)), env2)
          | _, _ => some (.error InterpreterErrorKind.NaN.to_string, env2)
    | .Add =>
      match visit_expression fuel left_hand env with
      | none => none
      | some (.error _, env1) => some (.error "Could not complete request", env1)
      | some (.ok left_result, env1) =>
        match visit_expression fuel right_hand env1 with
        | none => none
        | some (.error _, env2) =>
          some (.error "Could not complete request", env2)
        | some (.ok right_result, env2) =>
          if left_result.isString || right_result.isString then
            some (.ok (.String (left_result.coerce_to_string ++
                    right_result.coerce_to_string)), env2)
          else
            match left_result.coerce_to_number, right_result.coerce_to_number with
            | some left_num, some right_num =>
              some (.ok (.Number (left_num.add right_num)), env2)
            | _, _ => some (.error InterpreterErrorKind.NaN.to_string, env2)
    | .Equal =>
      match visit_expression fuel left_hand env with
      | none => none
      | some (.error _, env1) => some (.error "Could not complete request", env1)
      | some (.ok left_result, env1) =>
        match visit_expression fuel right_hand env1 with
        | none => none
        | some (.error _, env2) =>
          some (.error "Could not complete request", env2)
        | some (.ok right_result, env2) =>
          if left_result.isBoolean || right_result.isBoolean then
            some (.ok (.Boolean
              (left_result.coerce_to_bool = right_result.coerce_to_bool)), env2)
          else if left_result.isNumber || right_result.isNumber then
            match left_result.coerce_to_number, right_result.coerce_to_number with
            | some left_num, some right_num =>
              some (.ok (.Boolean (f64_eq left_num right_num)), env2)
            | _, _ => some (.error InterpreterErrorKind.NaN.to_string, env2)
          else
            some (.ok (.Boolean
              (left_result.coerce_to_string = right_result.coerce_to_string)),
              env2)
    | .Exponentiation =>
      match visit_expression fuel right_hand env with
      | none => none
      | some (.error _, env1) =>
        some (.error InterpreterErrorKind.NaN.to_string, env1)
      | some (.ok right_result, env1) =>
        match right_result.coerce_to_number with
        | none => some (.error InterpreterErrorKind.NaN.to_string, env1)
        | some right_value =>
          match visit_expression fuel left_hand env1 with
          | none => none
          | some (.error _, env2) =>
            some (.error InterpreterErrorKind.NaN.to_string, env2)
          | some (.ok left_result, env2) =>
            match left_result.coerce_to_number with
            | none => some (.error InterpreterErrorKind.NaN.to_string, env2)
            | some left_value =>
              some (.ok (.Number (left_value.powf right_value)), env2)

/-- `Evaluator::handle_comparators` (src/interpreter/visitor.rs).  Both
operands are evaluated unconditionally; every failure path (an operand
error as well as a coercion failure) falls through to `Ok(Boolean(false))`. -/
def handle_comparators : Nat → Expression → Operator → Expression →
    Environment → Option (Except String ExpressionResult × Environment)
  | 0, _, _, _, _ => none
  | fuel + 1, left_hand, operator, right_hand, env =>
    match visit_expression fuel left_hand env with
    | none => none
    | some (left_result, env1) =>
      match visit_expression fuel right_hand env1 with
      | none => none
      | some (right_result, env2) =>
        match left_result, right_result with
        | .ok left_expression_result, .ok right_expression_result =>
          match left_expression_result.coerce_to_number,
                right_expression_result.coerce_to_number with
          | some left_num, some right_num =>
            if operator = .LessThan then
              some (.ok (.Boolean (left_num.lt right_num)), env2)
            else
              some (.ok (.Boolean (right_num.lt left_num)), env2)
          | _, _ => some (.ok (.Boolean false), env2)
        | _, _ => some (.ok (.Boolean false), env2)

/-- `Evaluator::handle_and_or_with_short_circuiting`
(src/interpreter/visitor.rs). -/
def handle_and_or_with_short_circuiting : Nat → Expression → Operator →
    Expression → Environment →
    Option (Except String ExpressionResult × Environment)
  | 0, _, _, _, _ => none
  | fuel + 1, left_hand, operator, right_hand, env =>
    match visit_expression fuel left_hand env with
    | none => none
    | some (.error _, env1) =>
      some (.error (InterpreterErrorKind.SyntaxError none).to_string, env1)
    | some (.ok left_result, env1) =>
      let left_bool := left_result.coerce_to_bool
      if operator = .And ∧ left_bool = false then
        some (.ok (.Boolean false), env1)
      else if operator = .Or ∧ left_bool = true then
        some (.ok (.Boolean true), env1)
      else
        match visit_expression fuel right_hand env1 with
        | none => none
        | some (.error _, env2) =>
          some (.error (InterpreterErrorKind.SyntaxError none).to_string, env2)
        | some (.ok right_result, env2) =>
          let right_bool := right_result.coerce_to_bool
          if operator = .And then
            some (.ok (.Boolean (left_bool && right_bool)), env2)
          else
            some (.ok (.Boolean (left_bool || right_bool)), env2)

/-- `Evaluator::handle_prefix_expression` (src/interpreter/visitor.rs). -/
def handle_prefix_expression : Nat → PrefixOperator → Expression →
    Environment → Option (Except String ExpressionResult × Environment)
  | 0, _, _, _ => none
  | fuel + 1, operator, expression, env =>
    match visit_expression fuel expression env with
    | none => none
    | some (.error _, env1) =>
      some (.error (InterpreterErrorKind.SyntaxError none).to_string, env1)
    | some (.ok value, env1) =>
      match operator with
      | .Negative | .Positive =>
        let sign : F64 :=
          if operator = .Negative then F64.ofInt (-1) else F64.ofInt 1
        match value.coerce_to_number with
        | some number => some (.ok (.Number (sign.mul number)), env1)
        | none => some (.error InterpreterErrorKind.NaN.to_string, env1)
      | .Not => some (.ok (.Boolean (! value.coerce_to_bool)), env1)
      | .Decrement | .Increment =>
        match expression with
        | .Identifier identifier =>
          some (modify_variable_and_return_new_value operator identifier env1)
        | _ =>
          some (.error (InterpreterErrorKind.SyntaxError
                  (some .InvalidLeftSidePrefixOp)).to_string, env1)

/-- `Evaluator::visit_statement` (src/interpreter/visitor.rs).  The returned
`Option ExpressionResult` is the return-value bubble.  Note that the
`ConditionalStatement` and `While` arms bind the block's result to
`_block_result` and discard it, exactly as the source does.  The `While` arm
with a non-conditional inner statement panics in Rust; the panic (a crash
that never returns) is modelled as `none` for every fuel. -/
def visit_statement : Nat → Statement → Environment →
    Option (Option ExpressionResult × Environment)
  | 0, _, _ => none
  | fuel + 1, statement, env =>
    match statement with
    | .Let identifier expression =>
      match visit_expression fuel expression env with
      | none => none
      | some (.ok val, env1) => some (none, env1.define_variable identifier val)
      | some (.error _, env1) => some (none, env1)
    | .ExpressionStatement expression =>
      match visit_expression fuel expression env with
      | none => none
      | some (_, env1) => some (none, env1)
    | .ReturnStatement return_expression =>
      match return_expression with
      | some expression =>
        match visit_expression fuel expression env with
        | none => none
        | some (.ok value, env1) => some (some value, env1)
        | some (.error _, env1) => some (some .Undefined, env1)
      | none => some (some .Undefined, env)
    | .ConditionalStatement condition block next_conditional =>
      match visit_expression fuel condition env with
      | none => none
      | some (.error _, env1) => some (none, env1)
      | some (.ok expression_result, env1) =>
        if expression_result.coerce_to_bool then
          match execute_block fuel block env1.create_child_env with
          | none => none
          | some (_block_result, block_env) =>
            some (none, env1.merge_child_env block_env)
        else
          match next_conditional with
          | some next_conditional_statement =>
            visit_statement fuel next_conditional_statement env1
          | none => some (none, env1)
    | .While inner_conditional =>
      match inner_conditional with
      | .ConditionalStatement condition block _next =>
        match visit_expression fuel condition env with
        | none => none
        | some (.error _, env1) => some (none, env1)
        | some (.ok expression_result, env1) =>
          if expression_result.coerce_to_bool then
            match execute_block fuel block env1.create_child_env with
            | none => none
            | some (_block_result, block_env) =>
              visit_statement fuel (.While inner_conditional)
                (env1.merge_child_env block_env)
          else some (none, env1)
      | _ => none
    | .FunctionDeclaration _ _ _ => some (none, env)

/-- `Block::execute_block` (src/ast.rs): `Ok(process_statements(...))`. -/
def execute_block : Nat → Block → Environment →
    Option (Except String ExpressionResult × Environment)
  | 0, _, _ => none
  | fuel + 1, block, env =>
    match process_statements fuel block env with
    | none => none
    | some (v, env1) => some (.ok v, env1)

/-- Modelled from the spec: `process_statements` (its definition lives in the
interpreter module file that is absent from the sources; this file has only
its callers).  "`process_statements(statements, &mut Environment) ->
ExpressionResult` (hoists then evaluates, returning the last bubbled value
or `Undefined`)"; a bubbled `Some` "terminat[es] the enclosing statement
sequence". -/
def process_statements : Nat → List Statement → Environment →
    Option (ExpressionResult × Environment)
  | 0, _, _ => none
  | fuel + 1, statements, env =>
    let (rest, env1) := hoist_functions statements env
    run_statement_list fuel rest env1

/-- Modelled from the spec: the statement-evaluation loop of
`process_statements` — evaluate the statements in order and stop at the
first return-value bubble. -/
def run_statement_list : Nat → List Statement → Environment →
    Option (ExpressionResult × Environment)
  | 0, _, _ => none
  | _fuel + 1, [], env => some (.Undefined, env)
  | fuel + 1, s :: rest, env =>
    match visit_statement fuel s env with
    | none => none
    | some (some value, env1) => some (value, env1)
    | some (none, env1) => run_statement_list fuel rest env1

/-- `Function::call` (src/function.rs). -/
def Function.call : Nat → Function → List Expression → Environment →
    Option (Except String ExpressionResult × Environment)
  | 0, _, _, _ => none
  | fuel + 1, function, arguments, parent_env =>
    if function.arguments.length ≠ arguments.length then
      some (.error (arity_mismatch_message function.arguments.length
              arguments.length), parent_env)
    else
      match load_arguments fuel function.arguments arguments
              parent_env.create_child_env with
      | none => none
      | some (.error err, _block_env) => some (.error err, parent_env)
      | some (.ok _, block_env) =>
        match execute_block fuel function.block block_env with
        | none => none
        | some (result, block_env1) =>
          some (result, parent_env.merge_child_env block_env1)

/-- The argument-loading loop of `Function::call` (src/function.rs):
evaluate each argument against the block environment and bind it under the
corresponding formal; a non-`Identifier` formal aborts the call with a
syntax error, and an argument whose evaluation fails is silently skipped
(its formal is left unbound). -/
def load_arguments : Nat → List Expression → List Expression → Environment →
    Option (Except String Unit × Environment)
  | 0, _, _, _ => none
  | _fuel + 1, [], _, block_env => some (.ok (), block_env)
  | fuel + 1, formal :: formals, args, block_env =>
    match args with
    | [] => some (.ok (), block_env)
    | arg :: rest =>
      match formal with
      | .Identifier identifier =>
        match visit_expression fuel arg block_env with
        | none => none
        | some (.ok val, benv1) =>
          load_arguments fuel formals rest (benv1.define_variable identifier val)
        | some (.error _, benv1) => load_arguments fuel formals rest benv1
      | _ =>
        some (.error "SyntaxError: Argument declaration should be of identifier type",
              block_env)

end

/-! ## The parser (src/parser.rs)

`Parser` is the source struct: a token vector plus a cursor.  Methods that
mutate `self` in Rust return the mutated `Parser` alongside their result.
The `parse_left_associative` combinator of the source (a higher-order
while-loop shared by all left-associative levels) is transcribed as one
explicit `..._loop` function per precedence level. -/

/-- `ParserErrorKind` (src/interpreter/errors.rs). -/
inductive ParserErrorKind where
  | SyntaxError (kind : Option SyntaxErrorKind)
deriving DecidableEq

/-- `ParserError` (src/interpreter/errors.rs). -/
structure ParserError where
  kind : ParserErrorKind
deriving DecidableEq

/-- `Parser` (src/parser.rs). -/
structure Parser where
  tokens : List Token
  position : Nat
deriving DecidableEq

/-- `Vec::get(i)` with the parser's `unwrap_or(&Token::EOF)` default. -/
def getTokenOrEOF (tokens : List Token) (i : Nat) : Token :=
  (tokens.get? i).getD .EOF

/-- `Parser::peek_at`. -/
def Parser.peek_at (p : Parser) (position : Nat) : Token :=
  getTokenOrEOF p.tokens position

/-- `Parser::peek_keep_white_space`. -/
def Parser.peek_keep_white_space (p : Parser) : Token :=
  getTokenOrEOF p.tokens p.position

def countLeadingNewLines : List Token → Nat
  | .NewLine :: rest => countLeadingNewLines rest + 1
  | _ => 0

/-- `Parser::skip_new_lines`: advance the cursor past consecutive `NewLine`
tokens (past the end of the vector every lookup is `EOF`, so the Rust loop
stops exactly when the current token is no longer a `NewLine`). -/
def Parser.skip_new_lines (p : Parser) : Parser :=
  { p with
    position := p.position + countLeadingNewLines (p.tokens.drop p.position) }

/-- `Parser::peek` (it first skips newlines, mutating the cursor). -/
def Parser.peek (p : Parser) : Token × Parser :=
  let p1 := p.skip_new_lines
  (p1.peek_keep_white_space, p1)

/-- `Parser::advance`. -/
def Parser.advance (p : Parser) : Token × Parser :=
  let (token, p1) := p.peek
  (token, { p1 with position := p1.position + 1 })

/-- `Parser::expect`. -/
def Parser.expect (p : Parser) (expected : Token) : Bool × Parser :=
  let (t, p1) := p.peek
  if t = expected then (true, { p1 with position := p1.position + 1 })
  else (false, p1)

def expectNextNAux (p : Parser) : List Token → Nat → Bool
  | [], _ => true
  | expected :: rest, index =>
    if p.peek_at (p.position + index) = expected then
      expectNextNAux p rest (index + 1)
    else false

/-- `Parser::expect_next_n` (no newline skipping, all-or-nothing consume). -/
def Parser.expect_next_n (p : Parser) (expected : List Token) : Bool × Parser :=
  if expectNextNAux p expected 0 then
    (true, { p with position := p.position + expected.length })
  else (false, p)

/-- `Parser::unexpected_token`. -/
def Parser.unexpected_token (p : Parser) : ParserError :=
  match p.peek_keep_white_space with
  | .Ident name => ⟨.SyntaxError (some (.UnexpectedIdentifier name))⟩
  | t => ⟨.SyntaxError (some (.UnexpectedToken t))⟩

/-- `Parser::extract_subset`: return the sub-parser over
`tokens[start..=endPos]` and the outer parser with that range spliced out.
(For `endPos ≥ tokens.len()` the Rust slicing would panic; that is
unreachable for `EOF`-terminated token vectors, and the total `take`/`drop`
model is only relied on below the length.) -/
def Parser.extract_subset (p : Parser) (start endPos : Nat) : Parser × Parser :=
  let subset := (p.tokens.drop start).take (endPos + 1 - start)
  let remaining := p.tokens.take start ++ p.tokens.drop (endPos + 1)
  (⟨subset, 0⟩, { p with tokens := remaining })

/-- `Parser::remove_wrapping_parens`.  (For the empty vector the Rust
`tokens.len() - 1` underflows; `peek_at` of the wrapped index is `EOF` in a
release build, so nothing is popped — the natural-subtraction model below
agrees.) -/
def Parser.remove_wrapping_parens (p : Parser) : Parser :=
  let toks1 :=
    if getTokenOrEOF p.tokens 0 = .LeftParen then p.tokens.drop 1 else p.tokens
  let toks2 :=
    if getTokenOrEOF toks1 (toks1.length - 1) = .RightParen then toks1.dropLast
    else toks1
  { p with tokens := toks2 }

/-- The matching-paren scan of `Parser::parse_sub_expression`: starting just
after an opening paren at `parser_position` with nesting `sub_level`, walk
forward until the nesting returns to zero (an `EOF` lookup forces it to
zero); returns the final scan position. -/
def scan_matching_paren : Nat → Parser → Nat → Nat → Option Nat
  | 0, _, _, _ => none
  | fuel + 1, p, parser_position, sub_level =>
    if sub_level = 0 then some parser_position
    else
      let next := parser_position + 1
      let newLevel :=
        match p.peek_at next with
        | .LeftParen => sub_level + 1
        | .RightParen => sub_level - 1
        | .EOF => 0
        | _ => sub_level
      scan_matching_paren fuel p next newLevel

mutual

/-- `Parser::parse` (src/parser.rs): one `Result` per top-level statement. -/
def Parser.parse : Nat → Parser → Option (List (Except ParserError Statement) × Parser)
  | 0, _ => none
  | fuel + 1, p =>
    let (t, p1) := p.peek
    if t ≠ .EOF ∧ p1.position < p1.tokens.length then
      match Parser.parse_statement fuel p1 with
      | none => none
      | some (r, p2) =>
        match Parser.parse fuel p2 with
        | none => none
        | some (rest, p3) => some (r :: rest, p3)
    else some ([], p1)

/-- `Parser::parse_statement`: dispatch on the leading token. -/
def Parser.parse_statement : Nat → Parser →
    Option (Except ParserError Statement × Parser)
  | 0, _ => none
  | fuel + 1, p =>
    let (t, p1) := p.peek
    match t with
    | .Let => Parser.parse_let fuel p1
    | .Function => Parser.parse_function fuel p1
    | .Return =>
      match Parser.parse_return fuel p1 with
      | none => none
      | some (s, p2) => some (.ok s, p2)
    | .If => Parser.parse_conditional fuel p1
    | .While => Parser.parse_while fuel p1
    | _ => Parser.parse_expression_statement fuel p1

/-- `Parser::parse_let`. -/
def Parser.parse_let : Nat → Parser →
    Option (Except ParserError Statement × Parser)
  | 0, _ => none
  | fuel + 1, p =>
    let (_, p1) := p.advance
    let (t, p2) := p1.advance
    match t with
    | .Ident name =>
      let (eq, p3) := p2.expect .Equals
      if eq then
        match Parser.parse_expression fuel p3 with
        | none => none
        | some (expr, p4) =>
          let (_, p5) := p4.expect .Semicolon
          some (.ok (.Let name expr), p5)
      else some (.error p3.unexpected_token, p3)
    | _ => some (.error p2.unexpected_token, p2)

/-- `Parser::parse_function`. -/
def Parser.parse_function : Nat → Parser →
    Option (Except ParserError Statement × Parser)
  | 0, _ => none
  | fuel + 1, p =>
    let (_, p1) := p.advance
    let (t, p2) := p1.advance
    match t with
    | .Ident name =>
      let (lp, p3) := p2.expect .LeftParen
      if lp then
        match Parser.parse_arguments fuel p3 with
        | none => none
        | some (arguments, p4) =>
          match Parser.parse_block fuel p4 with
          | none => none
          | some (.ok block, p5) =>
            some (.ok (.FunctionDeclaration name arguments block), p5)
          | some (.error _, p5) => some (.error p5.unexpected_token, p5)
      else some (.error p3.unexpected_token, p3)
    | _ => some (.error p2.unexpected_token, p2)

/-- `Parser::parse_while`. -/
def Parser.parse_while : Nat → Parser →
    Option (Except ParserError Statement × Parser)
  | 0, _ => none
  | fuel + 1, p =>
    let (_, p1) := p.advance
    match Parser.parse_paren_wrapped_expression fuel p1 with
    | none => none
    | some (.error e, p2) => some (.error e, p2)
    | some (.ok condition, p2) =>
      match Parser.parse_block fuel p2 with
      | none => none
      | some (.error e, p3) => some (.error e, p3)
      | some (.ok block, p3) =>
        some (.ok (.While (.ConditionalStatement condition block none)), p3)

/-- `Parser::parse_conditional` (a plain `else` keeps the initial condition
`Boolean(true)`; `else if` recurses). -/
def Parser.parse_conditional : Nat → Parser →
    Option (Except ParserError Statement × Parser)
  | 0, _ => none
  | fuel + 1, p =>
    let (isIf, p1) := p.expect .If
    let cont := fun (conditional_expression : Expression) (p2 : Parser) =>
      match Parser.parse_block fuel p2 with
      | none => none
      | some (.error e, p3) => some (.error e, p3)
      | some (.ok block, p3) =>
        -- `while self.peek() == &Token::NewLine { self.advance(); }`: since
        -- `peek` itself skips newlines, the net effect is one newline skip.
        let p4 := p3.skip_new_lines
        let (isElse, p5) := p4.expect .Else
        if isElse then
          match Parser.parse_conditional fuel p5 with
          | none => none
          | some (.error e, p6) => some (.error e, p6)
          | some (.ok elseStmt, p6) =>
            some (.ok (.ConditionalStatement conditional_expression block
                    (some elseStmt)), p6)
        else
          some (.ok (.ConditionalStatement conditional_expression block none), p5)
    if isIf then
      match Parser.parse_paren_wrapped_expression fuel p1 with
      | none => none
      | some (.error e, p2) => some (.error e, p2)
      | some (.ok condition, p2) => cont condition p2
    else cont (.Boolean true) p1

/-- `Parser::parse_paren_wrapped_expression`. -/
def Parser.parse_paren_wrapped_expression : Nat → Parser →
    Option (Except ParserError Expression × Parser)
  | 0, _ => none
  | fuel + 1, p =>
    let (lp, p1) := p.expect .LeftParen
    if lp then
      match Parser.parse_expression fuel p1 with
      | none => none
      | some (conditional_expression, p2) =>
        let (rp, p3) := p2.expect .RightParen
        if rp then some (.ok conditional_expression, p3)
        else some (.error p3.unexpected_token, p3)
    else some (.error p1.unexpected_token, p1)

/-- `Parser::parse_arguments`: loop until a `RightParen` is consumed,
skipping one comma before each argument expression. -/
def Parser.parse_arguments : Nat → Parser → Option (List Expression × Parser)
  | 0, _ => none
  | fuel + 1, p =>
    let (closed, p1) := p.expect .RightParen
    if closed then some ([], p1)
    else
      let (t, p2) := p1.peek
      let p3 := if t = .Comma then (p2.advance).2 else p2
      match Parser.parse_expression fuel p3 with
      | none => none
      | some (argument, p4) =>
        match Parser.parse_arguments fuel p4 with
        | none => none
        | some (args, p5) => some (argument :: args, p5)

/-- `Parser::parse_return` (infallible: it returns a plain `Statement`). -/
def Parser.parse_return : Nat → Parser → Option (Statement × Parser)
  | 0, _ => none
  | fuel + 1, p =>
    let (_, p1) := p.advance
    let (t, p2) := p1.peek
    if t = .Semicolon ∨ t = .NewLine then some (.ReturnStatement none, p2)
    else
      match Parser.parse_expression fuel p2 with
      | none => none
      | some (expression, p3) =>
        let (_, p4) := p3.expect .Semicolon
        some (.ReturnStatement (some expression), p4)

/-- `Parser::parse_block`. -/
def Parser.parse_block : Nat → Parser →
    Option (Except ParserError (List Statement) × Parser)
  | 0, _ => none
  | fuel + 1, p =>
    let (lb, p1) := p.expect .LeftCurlyBrace
    if lb then Parser.parse_block_loop fuel [] p1
    else some (.error p1.unexpected_token, p1)

/-- The statement-collecting loop of `Parser::parse_block`. -/
def Parser.parse_block_loop : Nat → List Statement → Parser →
    Option (Except ParserError (List Statement) × Parser)
  | 0, _, _ => none
  | fuel + 1, acc, p =>
    let (rb, p1) := p.expect .RightCurlyBrace
    if rb then some (.ok acc, p1)
    else
      let (t, p2) := p1.peek
      if t = .Semicolon ∨ t = .Comma ∨ t = .NewLine then
        Parser.parse_block_loop fuel acc (p2.advance).2
      else
        match Parser.parse_statement fuel p2 with
        | none => none
        | some (.error e, p3) => some (.error e, p3)
        | some (.ok statement, p3) =>
          Parser.parse_block_loop fuel (acc ++ [statement]) p3.skip_new_lines

/-- `Parser::parse_expression_statement`. -/
def Parser.parse_expression_statement : Nat → Parser →
    Option (Except ParserError Statement × Parser)
  | 0, _ => none
  | fuel + 1, p =>
    let (t, p1) := p.peek
    let p2 := if t = .Semicolon ∨ t = .Comma ∨ t = .NewLine then (p1.advance).2
      else p1
    let (t2, p3) := p2.peek
    if t2 = .EOF then some (.error p3.unexpected_token, p3)
    else
      match Parser.parse_expression fuel p3 with
      | none => none
      | some (expression, p4) =>
        let (_, p5) := p4.expect .Semicolon
        some (.ok (.ExpressionStatement expression), p5)

/-- `Parser::parse_expression`. -/
def Parser.parse_expression : Nat → Parser → Option (Expression × Parser)
  | 0, _ => none
  | fuel + 1, p => Parser.parse_assignment fuel p

/-- `Parser::parse_assignment` (priority level 2): `*=`, `/=`, `+=`, `-=`
desugar to `Assignment(lhs, Operation(lhs, op, rhs))`
(`create_operator_and_assign` in the source); a single `=` builds a plain
`Assignment`. -/
def Parser.parse_assignment : Nat → Parser → Option (Expression × Parser)
  | 0, _ => none
  | fuel + 1, p =>
    match Parser.parse_logical_or fuel p with
    | none => none
    | some (expr, p1) =>
      let (star, p2) := p1.expect_next_n [.Star, .Equals]
      if star then Parser.parse_compound_assign fuel .Multiply expr p2
      else
        let (slash, p3) := p2.expect_next_n [.Slash, .Equals]
        if slash then Parser.parse_compound_assign fuel .Divide expr p3
        else
          let (plus, p4) := p3.expect_next_n [.Plus, .Equals]
          if plus then Parser.parse_compound_assign fuel .Add expr p4
          else
            let (minus, p5) := p4.expect_next_n [.Minus, .Equals]
            if minus then Parser.parse_compound_assign fuel .Subtract expr p5
            else
              let (t, p6) := p5.peek
              if t = .Equals ∧ p6.peek_at (p6.position + 1) ≠ .Equals then
                let p7 := (p6.advance).2
                match Parser.parse_logical_or fuel p7 with
                | none => none
                | some (right, p8) => some (.Assignment expr right, p8)
              else some (expr, p6)

/-- `Parser::create_operator_and_assign`. -/
def Parser.parse_compound_assign : Nat → Operator → Expression → Parser →
    Option (Expression × Parser)
  | 0, _, _, _ => none
  | fuel + 1, operator, expr, p =>
    match Parser.parse_logical_or fuel p with
    | none => none
    | some (right, p1) =>
      some (.Assignment expr (.Operation expr operator right), p1)

/-- `Parser::parse_logical_or` (priority level 3). -/
def Parser.parse_logical_or : Nat → Parser → Option (Expression × Parser)
  | 0, _ => none
  | fuel + 1, p =>
    match Parser.parse_logical_and fuel p with
    | none => none
    | some (expr, p1) => Parser.parse_logical_or_loop fuel expr p1

def Parser.parse_logical_or_loop : Nat → Expression → Parser →
    Option (Expression × Parser)
  | 0, _, _ => none
  | fuel + 1, left, p =>
    let (t, p1) := p.peek
    if t = .Pipe ∧ p1.peek_at (p1.position + 1) = .Pipe then
      let p2 := (p1.advance).2
      let p3 := (p2.advance).2
      match Parser.parse_logical_and fuel p3 with
      | none => none
      | some (right, p4) =>
        Parser.parse_logical_or_loop fuel (.Operation left .Or right) p4
    else some (left, p1)

/-- `Parser::parse_logical_and` (priority level 4). -/
def Parser.parse_logical_and : Nat → Parser → Option (Expression × Parser)
  | 0, _ => none
  | fuel + 1, p =>
    match Parser.parse_equality fuel p with
    | none => none
    | some (expr, p1) => Parser.parse_logical_and_loop fuel expr p1

def Parser.parse_logical_and_loop : Nat → Expression → Parser →
    Option (Expression × Parser)
  | 0, _, _ => none
  | fuel + 1, left, p =>
    let (t, p1) := p.peek
    if t = .Ampersand ∧ p1.peek_at (p1.position + 1) = .Ampersand then
      let p2 := (p1.advance).2
      let p3 := (p2.advance).2
      match Parser.parse_equality fuel p3 with
      | none => none
      | some (right, p4) =>
        Parser.parse_logical_and_loop fuel (.Operation left .And right) p4
    else some (left, p1)

/-- `Parser::parse_equality` (priority level 8); `!=` desugars to
`Not(Equal(..))`. -/
def Parser.parse_equality : Nat → Parser → Option (Expression × Parser)
  | 0, _ => none
  | fuel + 1, p =>
    match Parser.parse_comparator fuel p with
    | none => none
    | some (expr, p1) => Parser.parse_equality_loop fuel expr p1

def Parser.parse_equality_loop : Nat → Expression → Parser →
    Option (Expression × Parser)
  | 0, _, _ => none
  | fuel + 1, left, p =>
    let (eqeq, p1) := p.expect_next_n [.Equals, .Equals]
    if eqeq then
      match Parser.parse_comparator fuel p1 with
      | none => none
      | some (right, p2) =>
        Parser.parse_equality_loop fuel (.Operation left .Equal right) p2
    else
      let (neq, p2) := p1.expect_next_n [.ExclamationMark, .Equals]
      if neq then
        match Parser.parse_comparator fuel p2 with
        | none => none
        | some (right, p3) =>
          Parser.parse_equality_loop fuel
            (.PrefixExpr .Not (.Operation left .Equal right)) p3
      else some (left, p2)

/-- `Parser::parse_comparator` (priority level 9); a trailing `=` folds into
`(strict) OR (equality)`. -/
def Parser.parse_comparator : Nat → Parser → Option (Expression × Parser)
  | 0, _ => none
  | fuel + 1, p =>
    match Parser.parse_term fuel p with
    | none => none
    | some (expr, p1) => Parser.parse_comparator_loop fuel expr p1

def Parser.parse_comparator_loop : Nat → Expression → Parser →
    Option (Expression × Parser)
  | 0, _, _ => none
  | fuel + 1, left, p =>
    let (t, p1) := p.peek
    if t = .LeftChevron ∨ t = .RightChevron then
      let (tok, p2) := p1.advance
      let operator := if tok = .LeftChevron then Operator.LessThan
        else Operator.GreaterThan
      let (include_equality, p3) := p2.expect .Equals
      match Parser.parse_term fuel p3 with
      | none => none
      | some (right, p4) =>
        let expr := Expression.Operation left operator right
        let expr :=
          if include_equality then
            Expression.Operation expr .Or (.Operation left .Equal right)
          else expr
        Parser.parse_comparator_loop fuel expr p4
    else some (left, p1)

/-- `Parser::parse_term` (priority level 11). -/
def Parser.parse_term : Nat → Parser → Option (Expression × Parser)
  | 0, _ => none
  | fuel + 1, p =>
    match Parser.parse_factor fuel p with
    | none => none
    | some (expr, p1) => Parser.parse_term_loop fuel expr p1

def Parser.parse_term_loop : Nat → Expression → Parser →
    Option (Expression × Parser)
  | 0, _, _ => none
  | fuel + 1, left, p =>
    let (t, p1) := p.peek
    if (t = .Plus ∨ t = .Minus) ∧ p1.peek_at (p1.position + 1) ≠ .Equals then
      let (tok, p2) := p1.advance
      let operator := if tok = .Plus then Operator.Add else Operator.Subtract
      match Parser.parse_factor fuel p2 with
      | none => none
      | some (right, p3) =>
        Parser.parse_term_loop fuel (.Operation left operator right) p3
    else some (left, p1)

/-- `Parser::parse_factor` (priority level 12); a following `=` (compound
assignment) or `*` (exponentiation) defers to another level. -/
def Parser.parse_factor : Nat → Parser → Option (Expression × Parser)
  | 0, _ => none
  | fuel + 1, p =>
    match Parser.parse_exponentiation fuel p with
    | none => none
    | some (expr, p1) => Parser.parse_factor_loop fuel expr p1

def Parser.parse_factor_loop : Nat → Expression → Parser →
    Option (Expression × Parser)
  | 0, _, _ => none
  | fuel + 1, left, p =>
    let (t, p1) := p.peek
    if (t = .Star ∨ t = .Slash ∨ t = .Percent) ∧
        ¬(p1.peek_at (p1.position + 1) = .Equals ∨
          p1.peek_at (p1.position + 1) = .Star) then
      let (tok, p2) := p1.advance
      let operator := if tok = .Star then Operator.Multiply
        else if tok = .Slash then Operator.Divide else Operator.Modulo
      match Parser.parse_exponentiation fuel p2 with
      | none => none
      | some (right, p3) =>
        Parser.parse_factor_loop fuel (.Operation left operator right) p3
    else some (left, p1)

/-- `Parser::parse_exponentiation` (priority level 13): the right operand is
parsed by a recursive self-call, making `**` right-associative. -/
def Parser.parse_exponentiation : Nat → Parser → Option (Expression × Parser)
  | 0, _ => none
  | fuel + 1, p =>
    match Parser.parse_unary fuel p with
    | none => none
    | some (expr, p1) => Parser.parse_exponentiation_loop fuel expr p1

def Parser.parse_exponentiation_loop : Nat → Expression → Parser →
    Option (Expression × Parser)
  | 0, _, _ => none
  | fuel + 1, left, p =>
    let (ss, p1) := p.expect_next_n [.Star, .Star]
    if ss then
      match Parser.parse_exponentiation fuel p1 with
      | none => none
      | some (right, p2) =>
        Parser.parse_exponentiation_loop fuel
          (.Operation left .Exponentiation right) p2
    else some (left, p1)

/-- `Parser::parse_unary` (priority level 14): a doubled `+`/`-` is an
increment/decrement, a single one a sign. -/
def Parser.parse_unary : Nat → Parser → Option (Expression × Parser)
  | 0, _ => none
  | fuel + 1, p =>
    let (t, p1) := p.peek
    match t with
    | .Minus | .Plus =>
      let (token, p2) := p1.advance
      let (t2, p3) := p2.peek
      if t2 = token then
        let p4 := (p3.advance).2
        match Parser.parse_unary fuel p4 with
        | none => none
        | some (right, p5) =>
          if token = .Minus then some (.PrefixExpr .Decrement right, p5)
          else some (.PrefixExpr .Increment right, p5)
      else
        match Parser.parse_unary fuel p3 with
        | none => none
        | some (right, p4) =>
          let pre := if token = .Minus then PrefixOperator.Negative
            else PrefixOperator.Positive
          some (.PrefixExpr pre right, p4)
    | .ExclamationMark =>
      let p2 := (p1.advance).2
      match Parser.parse_unary fuel p2 with
      | none => none
      | some (right, p3) => some (.PrefixExpr .Not right, p3)
    | _ => Parser.parse_sub_expression fuel p1

/-- `Parser::parse_sub_expression` (priority level 18): a parenthesized
group is located by the depth-counting scan, extracted into an independent
sub-parser, stripped of its wrapping parens and parsed to completion; the
sub-expression result is returned with the outer (spliced) parser state. -/
def Parser.parse_sub_expression : Nat → Parser → Option (Expression × Parser)
  | 0, _ => none
  | fuel + 1, p =>
    let (t, p1) := p.peek
    if t = .LeftParen then
      let left_paren_position := p1.position
      match scan_matching_paren fuel p1 left_paren_position 1 with
      | none => none
      | some endPos =>
        let (subP, selfP) := p1.extract_subset left_paren_position endPos
        let subP1 := subP.remove_wrapping_parens
        match Parser.parse_expression fuel subP1 with
        | none => none
        | some (expr, _) => some (expr, selfP)
    else Parser.parse_primary fuel p1

/-- `Parser::parse_primary`: number, identifier (possibly a call),
boolean or quoted string; every other consumed token silently falls back to
`NumberLiteral(0.0)`. -/
def Parser.parse_primary : Nat → Parser → Option (Expression × Parser)
  | 0, _ => none
  | fuel + 1, p =>
    let (token, p1) := p.advance
    match token with
    | .Number n => some (.NumberLiteral n, p1)
    | .Ident name =>
      let (t2, p2) := p1.peek
      match t2 with
      | .LeftParen =>
        let p3 := (p2.advance).2
        match Parser.parse_arguments fuel p3 with
        | none => none
        | some (arguments, p4) =>
          some (.Call (.Identifier name) arguments, p4)
      | _ => some (.Identifier name, p2)
    | .Boolean is_true => some (.Boolean is_true, p1)
    | .DoubleQuote =>
      let (token2, p2) := p1.advance
      let expr := match token2 with
        | .String string => Expression.String string
        | _ => Expression.NumberLiteral (F64.ofInt 0)
      let (t3, p3) := p2.peek
      if t3 = .DoubleQuote then some (expr, (p3.advance).2)
      else some (expr, p3)
    | _ => some (.NumberLiteral (F64.ofInt 0), p1)

end

/-- `separate_out_statements_and_parser_errors` (src/parser.rs). -/
def separate_out_statements_and_parser_errors
    (statement_results : List (Except ParserError Statement)) :
    List Statement × List ParserError :=
  match statement_results with
  | [] => ([], [])
  | .ok statement :: rest =>
    let (ss, es) := separate_out_statements_and_parser_errors rest
    (statement :: ss, es)
  | .error err :: rest =>
    let (ss, es) := separate_out_statements_and_parser_errors rest
    (ss, err :: es)

/-! ## Concrete programs used by the claims -/

/-- Token stream of the source `let x = 3; if (x > 2) { let y = 5; ++x; }`
(spec §6: the lexer yields an `EOF`-terminated token vector). -/
def toks_c2 : List Token :=
  [.Let, .Ident "x", .Equals, .Number (F64.ofInt 3), .Semicolon,
   .If, .LeftParen, .Ident "x", .RightChevron, .Number (F64.ofInt 2), .RightParen,
   .LeftCurlyBrace, .Let, .Ident "y", .Equals, .Number (F64.ofInt 5), .Semicolon,
   .Plus, .Plus, .Ident "x", .Semicolon, .RightCurlyBrace, .EOF]

def c2_s1 : Statement := .Let "x" (.NumberLiteral (F64.ofInt 3))

def c2_s2 : Statement :=
  .ConditionalStatement
    (.Operation (.Identifier "x") .GreaterThan (.NumberLiteral (F64.ofInt 2)))
    [.Let "y" (.NumberLiteral (F64.ofInt 5)),
     .ExpressionStatement (.PrefixExpr .Increment (.Identifier "x"))]
    none

/-- The environment left behind by the `C2` program: `x` bound to `4.0`
(non-inherited), no `y`, no functions, nothing marked modified. -/
def c2_env_final : Environment :=
  ⟨[("x", (false, .Number (F64.ofInt 4)))], [], []⟩

/-- Token stream of the source `2 ** 2 ** 3`. -/
def toks_c7a : List Token :=
  [.Number (F64.ofInt 2), .Star, .Star, .Number (F64.ofInt 2), .Star, .Star,
   .Number (F64.ofInt 3), .EOF]

/-- Token stream of the source `2 ** 2 ** 3 - 50 * 2`. -/
def toks_c7b : List Token :=
  [.Number (F64.ofInt 2), .Star, .Star, .Number (F64.ofInt 2), .Star, .Star,
   .Number (F64.ofInt 3), .Minus, .Number (F64.ofInt 50), .Star,
   .Number (F64.ofInt 2), .EOF]

/-- The right-associated tree `2 ** (2 ** 3)`. -/
def c7a_expr : Expression :=
  .Operation (.NumberLiteral (F64.ofInt 2)) .Exponentiation
    (.Operation (.NumberLiteral (F64.ofInt 2)) .Exponentiation
      (.NumberLiteral (F64.ofInt 3)))

/-- The tree `(2 ** (2 ** 3)) - (50 * 2)`. -/
def c7b_expr : Expression :=
  .Operation c7a_expr .Subtract
    (.Operation (.NumberLiteral (F64.ofInt 50)) .Multiply
      (.NumberLiteral (F64.ofInt 2)))

/-! ## Unfolding lemmas for `Parser::parse` -/

/-- One iteration of the `Parser::parse` loop: a non-`EOF` head within
bounds parses one statement and continues. -/
theorem parse_cons (fuel : Nat) (p p1 p2 p3 : Parser) (t : Token)
    (r : Except ParserError Statement) (rest : List (Except ParserError Statement))
    (hpeek : p.peek = (t, p1)) (ht : t ≠ .EOF)
    (hpos : p1.position < p1.tokens.length)
    (hs : Parser.parse_statement fuel p1 = some (r, p2))
    (hrest : Parser.parse fuel p2 = some (rest, p3)) :
    Parser.parse (fuel + 1) p = some (r :: rest, p3) := by
  rw [Parser.parse, hpeek]
  simp only [ht, hpos, and_true, ne_eq, not_false_iff, if_true, hs, hrest]

/-- Termination of the `Parser::parse` loop at `EOF` or end of input. -/
theorem parse_nil (fuel : Nat) (p p1 : Parser) (t : Token)
    (hpeek : p.peek = (t, p1))
    (h : t = .EOF ∨ ¬ p1.position < p1.tokens.length) :
    Parser.parse (fuel + 1) p = some ([], p1) := by
  rw [Parser.parse, hpeek]
  rcases h with h | h
  · simp [h]
  · simp [h]

set_option maxRecDepth 100000

theorem c2_parse_s1 : Parser.parse_statement 31 ⟨toks_c2, 0⟩ =
    some (.ok c2_s1, ⟨toks_c2, 5⟩) := rfl

theorem c2_parse_s2 : Parser.parse_statement 30 ⟨toks_c2, 5⟩ =
    some (.ok c2_s2, ⟨toks_c2, 22⟩) := rfl

/-- Claim C2: executing `let x = 3; if (x > 2) { let y = 5; ++x; }` from an
empty environment leaves `x` bound to `Number(4.0)`, and a subsequent
evaluation of the identifier `y` fails with a `ReferenceError`.  The theorem
runs the embedded parser on the token stream of that source, runs
`process_statements` on the parsed statements from the empty environment,
and inspects the resulting environment. -/
theorem C2_block_scoping_write_back :
    Parser.parse 32 ⟨toks_c2, 0⟩ = some ([.ok c2_s1, .ok c2_s2], ⟨toks_c2, 22⟩)
    ∧ process_statements 20 [c2_s1, c2_s2] Environment.new =
        some (.Undefined, c2_env_final)
    ∧ c2_env_final.get_variable "x" = some (.Number (F64.ofInt 4))
    ∧ c2_env_final.get_variable "y" = none
    ∧ visit_expression 1 (.Identifier "y") c2_env_final =
        some (.error (InterpreterErrorKind.ReferenceError "y").to_string,
              c2_env_final) := by
  refine ⟨?_, rfl, rfl, rfl, rfl⟩
  exact parse_cons 31 _ ⟨toks_c2, 0⟩ ⟨toks_c2, 5⟩ _ .Let _ _ rfl (by decide)
    (by decide) c2_parse_s1
    (parse_cons 30 _ ⟨toks_c2, 5⟩ ⟨toks_c2, 22⟩ _ .If _ _ rfl (by decide)
      (by decide) c2_parse_s2
      (parse_nil 29 _ ⟨toks_c2, 22⟩ .EOF rfl (Or.inl rfl)))

theorem c7a_parse_stmt : Parser.parse_statement 63 ⟨toks_c7a, 0⟩ =
    some (.ok (.ExpressionStatement c7a_expr), ⟨toks_c7a, 7⟩) := rfl

theorem c7b_parse_stmt : Parser.parse_statement 63 ⟨toks_c7b, 0⟩ =
    some (.ok (.ExpressionStatement c7b_expr), ⟨toks_c7b, 11⟩) := rfl

/-- Claim C7: exponentiation parses right-associatively — `2 ** 2 ** 3`
parses as `2 ** (2 ** 3)` and evaluates to `Number(256.0)`, and
`2 ** 2 ** 3 - 50 * 2` parses as `(2 ** (2 ** 3)) - (50 * 2)` and evaluates
to `Number(156.0)`. -/
theorem C7_exponentiation_right_associative :
    Parser.parse 64 ⟨toks_c7a, 0⟩ =
      some ([.ok (.ExpressionStatement c7a_expr)], ⟨toks_c7a, 7⟩)
    ∧ visit_expression 8 c7a_expr Environment.new =
        some (.ok (.Number (F64.ofInt 256)), Environment.new)
    ∧ Parser.parse 64 ⟨toks_c7b, 0⟩ =
        some ([.ok (.ExpressionStatement c7b_expr)], ⟨toks_c7b, 11⟩)
    ∧ visit_expression 8 c7b_expr Environment.new =
        some (.ok (.Number (F64.ofInt 156)), Environment.new) := by
  refine ⟨?_, rfl, ?_, rfl⟩
  · exact parse_cons 63 _ ⟨toks_c7a, 0⟩ ⟨toks_c7a, 7⟩ _ (.Number (F64.ofInt 2))
      _ _ rfl (by decide) (by decide) c7a_parse_stmt
      (parse_nil 62 _ ⟨toks_c7a, 7⟩ .EOF rfl (Or.inl rfl))
  · exact parse_cons 63 _ ⟨toks_c7b, 0⟩ ⟨toks_c7b, 11⟩ _ (.Number (F64.ofInt 2))
      _ _ rfl (by decide) (by decide) c7b_parse_stmt
      (parse_nil 62 _ ⟨toks_c7b, 11⟩ .EOF rfl (Or.inl rfl))

/-! ## Unfolding lemmas for the evaluator -/

theorem visit_operation (fuel : Nat) (l r : Expression) (op : Operator)
    (env : Environment) :
    visit_expression (fuel + 1) (.Operation l op r) env =
      handle_operation_expression fuel l op r env := rfl

theorem visit_prefix_dispatch (fuel : Nat) (op : PrefixOperator) (e : Expression)
    (env : Environment) :
    visit_expression (fuel + 1) (.PrefixExpr op e) env =
      handle_prefix_expression fuel op e env := rfl

theorem op_and_dispatch (fuel : Nat) (l r : Expression) (env : Environment) :
    handle_operation_expression (fuel + 1) l .And r env =
      handle_and_or_with_short_circuiting fuel l .And r env := rfl

theorem op_or_dispatch (fuel : Nat) (l r : Expression) (env : Environment) :
    handle_operation_expression (fuel + 1) l .Or r env =
      handle_and_or_with_short_circuiting fuel l .Or r env := rfl

theorem and_or_left_err (fuel : Nat) (l r : Expression) (op : Operator)
    (env env1 : Environment) (e : String)
    (h : visit_expression fuel l env = some (.error e, env1)) :
    handle_and_or_with_short_circuiting (fuel + 1) l op r env =
      some (.error (InterpreterErrorKind.SyntaxError none).to_string, env1) := by
  simp [handle_and_or_with_short_circuiting, h]

theorem and_or_short_and (fuel : Nat) (l r : Expression) (env env1 : Environment)
    (v : ExpressionResult) (h : visit_expression fuel l env = some (.ok v, env1))
    (hb : v.coerce_to_bool = false) :
    handle_and_or_with_short_circuiting (fuel + 1) l .And r env =
      some (.ok (.Boolean false), env1) := by
  simp [handle_and_or_with_short_circuiting, h, hb]

theorem and_or_short_or (fuel : Nat) (l r : Expression) (env env1 : Environment)
    (v : ExpressionResult) (h : visit_expression fuel l env = some (.ok v, env1))
    (hb : v.coerce_to_bool = true) :
    handle_and_or_with_short_circuiting (fuel + 1) l .Or r env =
      some (.ok (.Boolean true), env1) := by
  simp [handle_and_or_with_short_circuiting, h, hb]

theorem and_or_right_err_and (fuel : Nat) (l r : Expression)
    (env env1 env2 : Environment) (v : ExpressionResult) (e : String)
    (h : visit_expression fuel l env = some (.ok v, env1))
    (hb : v.coerce_to_bool = true)
    (h2 : visit_expression fuel r env1 = some (.error e, env2)) :
    handle_and_or_with_short_circuiting (fuel + 1) l .And r env =
      some (.error (InterpreterErrorKind.SyntaxError none).to_string, env2) := by
  simp [handle_and_or_with_short_circuiting, h, hb, h2]

theorem and_or_right_err_or (fuel : Nat) (l r : Expression)
    (env env1 env2 : Environment) (v : ExpressionResult) (e : String)
    (h : visit_expression fuel l env = some (.ok v, env1))
    (hb : v.coerce_to_bool = false)
    (h2 : visit_expression fuel r env1 = some (.error e, env2)) :
    handle_and_or_with_short_circuiting (fuel + 1) l .Or r env =
      some (.error (InterpreterErrorKind.SyntaxError none).to_string, env2) := by
  simp [handle_and_or_with_short_circuiting, h, hb, h2]

/-- Claim C4 (code bug): the spec promises a `DivisionByZero` error for a
near-zero divisor, and the `DivideOperator` strategy (with its own unit
test) implements exactly that check — but the evaluator's own `Divide` arm
in `handle_operation_expression` performs a plain division and returns an
`Ok` number for `10 / 0` instead of the error.  (In real `f64` arithmetic
the returned number is an infinity; the model only asserts that some
number, not an error, is returned.)  `DivisionByZero` renders as
`"Infinity"`, distinct from `"NaN"`. -/
theorem C4_division_by_zero_unchecked :
    (∃ q, visit_expression 3
        (.Operation (.NumberLiteral (F64.ofInt 10)) .Divide
          (.NumberLiteral (F64.ofInt 0))) Environment.new =
        some (.ok (.Number q), Environment.new))
    ∧ DivideOperator.apply (.Number (F64.ofInt 10)) (.Number (F64.ofInt 0))
        Environment.new = .error InterpreterErrorKind.DivisionByZero.to_string
    ∧ (F64.ofInt 0).abs.lt f64_EPSILON = true
    ∧ InterpreterErrorKind.DivisionByZero.to_string ≠
        InterpreterErrorKind.NaN.to_string := by
  refine ⟨⟨⟨0, 1⟩, rfl⟩, rfl, by decide, by decide⟩

/-- Claim C6: `And`/`Or` short-circuit.  For `And`, once the left operand
evaluates to a falsy value the result is `Boolean(false)`, the environment
is exactly the one the left evaluation produced, and the right operand is
arbitrary (hence never evaluated); dually for `Or` with a truthy left.
In particular `false && r` and `true || r` leave any environment — and so
any binding of `x`, for `r = ++x` — completely unchanged. -/
theorem C6_and_or_short_circuit :
    (∀ (fuel : Nat) (l r : Expression) (env env1 : Environment)
       (v : ExpressionResult),
       visit_expression fuel l env = some (.ok v, env1) →
       v.coerce_to_bool = false →
       visit_expression (fuel + 3) (.Operation l .And r) env =
         some (.ok (.Boolean false), env1))
    ∧ (∀ (fuel : Nat) (l r : Expression) (env env1 : Environment)
        (v : ExpressionResult),
        visit_expression fuel l env = some (.ok v, env1) →
        v.coerce_to_bool = true →
        visit_expression (fuel + 3) (.Operation l .Or r) env =
          some (.ok (.Boolean true), env1))
    ∧ (∀ (fuel : Nat) (r : Expression) (env : Environment),
        visit_expression (fuel + 4) (.Operation (.Boolean false) .And r) env =
          some (.ok (.Boolean false), env))
    ∧ (∀ (fuel : Nat) (r : Expression) (env : Environment),
        visit_expression (fuel + 4) (.Operation (.Boolean true) .Or r) env =
          some (.ok (.Boolean true), env)) := by
  refine ⟨?_, ?_, ?_, ?_⟩
  · intro fuel l r env env1 v h hb
    rw [visit_operation, op_and_dispatch]
    exact and_or_short_and fuel l r env env1 v h hb
  · intro fuel l r env env1 v h hb
    rw [visit_operation, op_or_dispatch]
    exact and_or_short_or fuel l r env env1 v h hb
  · intro fuel r env
    rw [visit_operation, op_and_dispatch]
    exact and_or_short_and (fuel + 1) _ r env env (.Boolean false) rfl rfl
  · intro fuel r env
    rw [visit_operation, op_or_dispatch]
    exact and_or_short_or (fuel + 1) _ r env env (.Boolean true) rfl rfl

/-- The environment binding `x` to `Number(3.0)`, used to witness C6. -/
def c6_env : Environment := ⟨[("x", (false, .Number (F64.ofInt 3)))], [], []⟩

/-- Witness for C6 at concrete input: evaluating `false && (++x)` and
`true || (++x)` in an environment with `x = 3` returns `false`/`true`
with that environment untouched (so `x` is still `3`). -/
theorem C6_and_or_short_circuit_witness :
    visit_expression 4
      (.Operation (.Boolean false) .And (.PrefixExpr .Increment (.Identifier "x")))
      c6_env = some (.ok (.Boolean false), c6_env)
    ∧ visit_expression 4
        (.Operation (.Boolean true) .Or (.PrefixExpr .Increment (.Identifier "x")))
        c6_env = some (.ok (.Boolean true), c6_env)
    ∧ c6_env.get_variable "x" = some (.Number (F64.ofInt 3)) :=
  ⟨C6_and_or_short_circuit.2.2.1 0 _ c6_env,
   C6_and_or_short_circuit.2.2.2 0 _ c6_env, rfl⟩

/-! ## The `Add` arms of `handle_operation_expression` (claim C8) -/

theorem add_string_concat (fuel : Nat) (l r : Expression)
    (env env1 env2 : Environment) (lv rv : ExpressionResult)
    (h1 : visit_expression fuel l env = some (.ok lv, env1))
    (h2 : visit_expression fuel r env1 = some (.ok rv, env2))
    (hs : (lv.isString || rv.isString) = true) :
    handle_operation_expression (fuel + 1) l .Add r env =
      some (.ok (.String (lv.coerce_to_string ++ rv.coerce_to_string)), env2) := by
  simp [handle_operation_expression, h1, h2, hs]

theorem add_numeric (fuel : Nat) (l r : Expression)
    (env env1 env2 : Environment) (lv rv : ExpressionResult) (a b : F64)
    (h1 : visit_expression fuel l env = some (.ok lv, env1))
    (h2 : visit_expression fuel r env1 = some (.ok rv, env2))
    (hs : (lv.isString || rv.isString) = false)
    (hc1 : lv.coerce_to_number = some a) (hc2 : rv.coerce_to_number = some b) :
    handle_operation_expression (fuel + 1) l .Add r env =
      some (.ok (.Number (a.add b)), env2) := by
  simp [handle_operation_expression, h1, h2, hs, hc1, hc2]

theorem add_nan (fuel : Nat) (l r : Expression)
    (env env1 env2 : Environment) (lv rv : ExpressionResult)
    (h1 : visit_expression fuel l env = some (.ok lv, env1))
    (h2 : visit_expression fuel r env1 = some (.ok rv, env2))
    (hs : (lv.isString || rv.isString) = false)
    (hc : lv.coerce_to_number = none ∨ rv.coerce_to_number = none) :
    handle_operation_expression (fuel + 1) l .Add r env =
      some (.error InterpreterErrorKind.NaN.to_string, env2) := by
  rcases hc with hc | hc
  · simp [handle_operation_expression, h1, h2, hs, hc]
  · cases hc1 : lv.coerce_to_number <;>
      simp [handle_operation_expression, h1, h2, hs, hc, hc1]

/-- The environment binding `x` to `String("apple")`, used by C8. -/
def c8_env : Environment := ⟨[("x", (false, .String "apple"))], [], []⟩

/-- Claim C8: `Add` is polymorphic.  When both operands evaluate: if either
value is a `String`, the result is the concatenation of the two string
coercions (left then right); otherwise, if both values number-coerce, the
result is their numeric sum, and if either coercion fails the result is the
`NaN` error.  Concretely, with `x = "apple"`, `x + 5` evaluates to
`"apple5"` and `x + false` to `"applefalse"`. -/
theorem C8_add_polymorphic :
    (∀ (fuel : Nat) (l r : Expression) (env env1 env2 : Environment)
       (lv rv : ExpressionResult),
       visit_expression fuel l env = some (.ok lv, env1) →
       visit_expression fuel r env1 = some (.ok rv, env2) →
       (lv.isString || rv.isString) = true →
       visit_expression (fuel + 2) (.Operation l .Add r) env =
         some (.ok (.String (lv.coerce_to_string ++ rv.coerce_to_string)), env2))
    ∧ (∀ (fuel : Nat) (l r : Expression) (env env1 env2 : Environment)
        (lv rv : ExpressionResult) (a b : F64),
        visit_expression fuel l env = some (.ok lv, env1) →
        visit_expression fuel r env1 = some (.ok rv, env2) →
        (lv.isString || rv.isString) = false →
        lv.coerce_to_number = some a → rv.coerce_to_number = some b →
        visit_expression (fuel + 2) (.Operation l .Add r) env =
          some (.ok (.Number (a.add b)), env2))
    ∧ (∀ (fuel : Nat) (l r : Expression) (env env1 env2 : Environment)
        (lv rv : ExpressionResult),
        visit_expression fuel l env = some (.ok lv, env1) →
        visit_expression fuel r env1 = some (.ok rv, env2) →
        (lv.isString || rv.isString) = false →
        (lv.coerce_to_number = none ∨ rv.coerce_to_number = none) →
        visit_expression (fuel + 2) (.Operation l .Add r) env =
          some (.error InterpreterErrorKind.NaN.to_string, env2))
    ∧ visit_expression 3
        (.Operation (.Identifier "x") .Add (.NumberLiteral (F64.ofInt 5)))
        c8_env = some (.ok (.String "apple5"), c8_env)
    ∧ visit_expression 3 (.Operation (.Identifier "x") .Add (.Boolean false))
        c8_env = some (.ok (.String "applefalse"), c8_env) := by
  refine ⟨?_, ?_, ?_, rfl, rfl⟩
  · intro fuel l r env env1 env2 lv rv h1 h2 hs
    rw [visit_operation]
    exact add_string_concat fuel l r env env1 env2 lv rv h1 h2 hs
  · intro fuel l r env env1 env2 lv rv a b h1 h2 hs hc1 hc2
    rw [visit_operation]
    exact add_numeric fuel l r env env1 env2 lv rv a b h1 h2 hs hc1 hc2
  · intro fuel l r env env1 env2 lv rv h1 h2 hs hc
    rw [visit_operation]
    exact add_nan fuel l r env env1 env2 lv rv h1 h2 hs hc

/-- Witness for C8 at concrete input: `"apple" + 5` through the general
string-concatenation case. -/
theorem C8_add_polymorphic_witness :
    visit_expression 3
      (.Operation (.String "apple") .Add (.NumberLiteral (F64.ofInt 5)))
      Environment.new = some (.ok (.String "apple5"), Environment.new) := by
  have h := C8_add_polymorphic.1 1 (.String "apple")
    (.NumberLiteral (F64.ofInt 5)) Environment.new Environment.new
    Environment.new (.String "apple") (.Number (F64.ofInt 5)) rfl rfl rfl
  exact h.trans (by rfl)

/-- Claim C9: calling a function with the wrong number of arguments is an
immediate hard error naming both the expected and the received count; the
caller's environment is returned untouched, no child environment is built
and no argument is evaluated (the result depends only on the two counts). -/
theorem C9_arity_mismatch (fuel : Nat) (f : Function) (args : List Expression)
    (env : Environment) (h : f.arguments.length ≠ args.length) :
    Function.call (fuel + 1) f args env =
      some (.error (arity_mismatch_message f.arguments.length args.length),
            env) := by
  rw [Function.call]
  simp [h]

/-- Witness for C9 at concrete input: a one-parameter function called with
no arguments (the message is the one the repository's own unit test
expects, including the "recieved" spelling). -/
theorem C9_arity_mismatch_witness :
    Function.call 5 ⟨[.Identifier "x"], []⟩ [] Environment.new =
      some (.error "Argument mismatch, function expected 1 arguments, recieved 0",
            Environment.new) := by
  have h := C9_arity_mismatch 4 ⟨[.Identifier "x"], []⟩ [] Environment.new
    (by decide)
  exact h.trans (by rfl)

/-! ## Error-propagation lemmas (claims C3 and C5) -/

theorem arith_left_err (fuel : Nat) (l r : Expression) (op : Operator)
    (env env1 : Environment) (e : String)
    (hop : op = .Multiply ∨ op = .Divide ∨ op = .Subtract ∨ op = .Modulo)
    (h : visit_expression fuel l env = some (.error e, env1)) :
    handle_operation_expression (fuel + 1) l op r env =
      some (.error InterpreterErrorKind.NaN.to_string, env1) := by
  rcases hop with h1 | h1 | h1 | h1 <;> subst h1 <;>
    simp [handle_operation_expression, h]

theorem arith_right_err (fuel : Nat) (l r : Expression) (op : Operator)
    (env env1 env2 : Environment) (lv : ExpressionResult) (e : String)
    (hop : op = .Multiply ∨ op = .Divide ∨ op = .Subtract ∨ op = .Modulo)
    (h1 : visit_expression fuel l env = some (.ok lv, env1))
    (h2 : visit_expression fuel r env1 = some (.error e, env2)) :
    handle_operation_expression (fuel + 1) l op r env =
      some (.error InterpreterErrorKind.NaN.to_string, env2) := by
  rcases hop with h | h | h | h <;> subst h <;>
    simp [handle_operation_expression, h1, h2]

theorem add_equal_left_err (fuel : Nat) (l r : Expression) (op : Operator)
    (env env1 : Environment) (e : String)
    (hop : op = .Add ∨ op = .Equal)
    (h : visit_expression fuel l env = some (.error e, env1)) :
    handle_operation_expression (fuel + 1) l op r env =
      some (.error "Could not complete request", env1) := by
  rcases hop with h1 | h1 <;> subst h1 <;> simp [handle_operation_expression, h]

theorem add_equal_right_err (fuel : Nat) (l r : Expression) (op : Operator)
    (env env1 env2 : Environment) (lv : ExpressionResult) (e : String)
    (hop : op = .Add ∨ op = .Equal)
    (h1 : visit_expression fuel l env = some (.ok lv, env1))
    (h2 : visit_expression fuel r env1 = some (.error e, env2)) :
    handle_operation_expression (fuel + 1) l op r env =
      some (.error "Could not complete request", env2) := by
  rcases hop with h | h <;> subst h <;>
    simp [handle_operation_expression, h1, h2]

theorem expo_right_err (fuel : Nat) (l r : Expression) (env env1 : Environment)
    (e : String)
    (h : visit_expression fuel r env = some (.error e, env1)) :
    handle_operation_expression (fuel + 1) l .Exponentiation r env =
      some (.error InterpreterErrorKind.NaN.to_string, env1) := by
  simp [handle_operation_expression, h]

theorem expo_left_err (fuel : Nat) (l r : Expression) (env env1 env2 : Environment)
    (rv : ExpressionResult) (q : F64) (e : String)
    (h1 : visit_expression fuel r env = some (.ok rv, env1))
    (hc : rv.coerce_to_number = some q)
    (h2 : visit_expression fuel l env1 = some (.error e, env2)) :
    handle_operation_expression (fuel + 1) l .Exponentiation r env =
      some (.error InterpreterErrorKind.NaN.to_string, env2) := by
  simp [handle_operation_expression, h1, hc, h2]

theorem comparators_operand_err (fuel : Nat) (l r : Expression) (op : Operator)
    (env env1 env2 : Environment)
    (res1 res2 : Except String ExpressionResult)
    (h1 : visit_expression fuel l env = some (res1, env1))
    (h2 : visit_expression fuel r env1 = some (res2, env2))
    (herr : (∃ e, res1 = .error e) ∨ (∃ e, res2 = .error e)) :
    handle_comparators (fuel + 1) l op r env =
      some (.ok (.Boolean false), env2) := by
  rcases herr with ⟨e, rfl⟩ | ⟨e, rfl⟩
  · cases res2 <;> simp [handle_comparators, h1, h2]
  · cases res1 <;> simp [handle_comparators, h1, h2]

theorem op_lt_dispatch (fuel : Nat) (l r : Expression) (env : Environment) :
    handle_operation_expression (fuel + 1) l .LessThan r env =
      handle_comparators fuel l .LessThan r env := rfl

theorem op_gt_dispatch (fuel : Nat) (l r : Expression) (env : Environment) :
    handle_operation_expression (fuel + 1) l .GreaterThan r env =
      handle_comparators fuel l .GreaterThan r env := rfl

theorem prefix_operand_err (fuel : Nat) (op : PrefixOperator) (e1 : Expression)
    (env env1 : Environment) (e : String)
    (h : visit_expression fuel e1 env = some (.error e, env1)) :
    handle_prefix_expression (fuel + 1) op e1 env =
      some (.error (InterpreterErrorKind.SyntaxError none).to_string, env1) := by
  simp [handle_prefix_expression, h]

theorem assignment_rhs_err (fuel : Nat) (id : String) (rhs : Expression)
    (env env1 : Environment) (e : String)
    (hv : env.has_variable id = true)
    (h : visit_expression fuel rhs env = some (.error e, env1)) :
    visit_expression (fuel + 1) (.Assignment (.Identifier id) rhs) env =
      some (.error e, env1) := by
  simp [visit_expression, hv, h]

/-- The environment owning a one-parameter function `g` with an empty body,
used to show that `Function::call` silently skips a failing argument. -/
def c5_env_g : Environment :=
  ⟨[], [("g", ⟨[.Identifier "a"], []⟩)], []⟩

/-- Claim C5 (amended): a failing operand evaluation fails the whole
expression for every `Operation` operator except `LessThan`/`GreaterThan`
(which instead yield `Ok(Boolean(false))`), and likewise for `Prefix`
operands and `Assignment` right-hand sides (each error possibly re-labelled
by the enclosing handler); a failing `Call` argument is silently skipped by
`Function::call` rather than failing the call.  Environments are threaded
exactly as the code mutates them (for the comparators both operands are
evaluated even when the first fails). -/
theorem C5_operand_error_propagation :
    (∀ (fuel : Nat) (l r : Expression) (op : Operator) (env env1 : Environment)
       (e : String),
       (op = .Multiply ∨ op = .Divide ∨ op = .Subtract ∨ op = .Modulo) →
       visit_expression fuel l env = some (.error e, env1) →
       visit_expression (fuel + 2) (.Operation l op r) env =
         some (.error InterpreterErrorKind.NaN.to_string, env1))
    ∧ (∀ (fuel : Nat) (l r : Expression) (op : Operator)
        (env env1 env2 : Environment) (lv : ExpressionResult) (e : String),
        (op = .Multiply ∨ op = .Divide ∨ op = .Subtract ∨ op = .Modulo) →
        visit_expression fuel l env = some (.ok lv, env1) →
        visit_expression fuel r env1 = some (.error e, env2) →
        visit_expression (fuel + 2) (.Operation l op r) env =
          some (.error InterpreterErrorKind.NaN.to_string, env2))
    ∧ (∀ (fuel : Nat) (l r : Expression) (op : Operator) (env env1 : Environment)
        (e : String), (op = .Add ∨ op = .Equal) →
        visit_expression fuel l env = some (.error e, env1) →
        visit_expression (fuel + 2) (.Operation l op r) env =
          some (.error "Could not complete request", env1))
    ∧ (∀ (fuel : Nat) (l r : Expression) (op : Operator)
        (env env1 env2 : Environment) (lv : ExpressionResult) (e : String),
        (op = .Add ∨ op = .Equal) →
        visit_expression fuel l env = some (.ok lv, env1) →
        visit_expression fuel r env1 = some (.error e, env2) →
        visit_expression (fuel + 2) (.Operation l op r) env =
          some (.error "Could not complete request", env2))
    ∧ (∀ (fuel : Nat) (l r : Expression) (env env1 : Environment) (e : String),
        visit_expression fuel r env = some (.error e, env1) →
        visit_expression (fuel + 2) (.Operation l .Exponentiation r) env =
          some (.error InterpreterErrorKind.NaN.to_string, env1))
    ∧ (∀ (fuel : Nat) (l r : Expression) (env env1 env2 : Environment)
        (rv : ExpressionResult) (q : F64) (e : String),
        visit_expression fuel r env = some (.ok rv, env1) →
        rv.coerce_to_number = some q →
        visit_expression fuel l env1 = some (.error e, env2) →
        visit_expression (fuel + 2) (.Operation l .Exponentiation r) env =
          some (.error InterpreterErrorKind.NaN.to_string, env2))
    ∧ (∀ (fuel : Nat) (l r : Expression) (op : Operator) (env env1 : Environment)
        (e : String), (op = .And ∨ op = .Or) →
        visit_expression fuel l env = some (.error e, env1) →
        visit_expression (fuel + 3) (.Operation l op r) env =
          some (.error (InterpreterErrorKind.SyntaxError none).to_string, env1))
    ∧ (∀ (fuel : Nat) (l r : Expression) (env env1 env2 : Environment)
        (v : ExpressionResult) (e : String),
        visit_expression fuel l env = some (.ok v, env1) →
        v.coerce_to_bool = true →
        visit_expression fuel r env1 = some (.error e, env2) →
        visit_expression (fuel + 3) (.Operation l .And r) env =
          some (.error (InterpreterErrorKind.SyntaxError none).to_string, env2))
    ∧ (∀ (fuel : Nat) (l r : Expression) (env env1 env2 : Environment)
        (v : ExpressionResult) (e : String),
        visit_expression fuel l env = some (.ok v, env1) →
        v.coerce_to_bool = false →
        visit_expression fuel r env1 = some (.error e, env2) →
        visit_expression (fuel + 3) (.Operation l .Or r) env =
          some (.error (InterpreterErrorKind.SyntaxError none).to_string, env2))
    ∧ (∀ (fuel : Nat) (l r : Expression) (op : Operator)
        (env env1 env2 : Environment) (res1 res2 : Except String ExpressionResult),
        (op = .LessThan ∨ op = .GreaterThan) →
        visit_expression fuel l env = some (res1, env1) →
        visit_expression fuel r env1 = some (res2, env2) →
        ((∃ e, res1 = .error e) ∨ (∃ e, res2 = .error e)) →
        visit_expression (fuel + 3) (.Operation l op r) env =
          some (.ok (.Boolean false), env2))
    ∧ (∀ (fuel : Nat) (op : PrefixOperator) (e1 : Expression)
        (env env1 : Environment) (e : String),
        visit_expression fuel e1 env = some (.error e, env1) →
        visit_expression (fuel + 2) (.PrefixExpr op e1) env =
          some (.error (InterpreterErrorKind.SyntaxError none).to_string, env1))
    ∧ (∀ (fuel : Nat) (id : String) (rhs : Expression) (env env1 : Environment)
        (e : String), env.has_variable id = true →
        visit_expression fuel rhs env = some (.error e, env1) →
        visit_expression (fuel + 1) (.Assignment (.Identifier id) rhs) env =
          some (.error e, env1))
    ∧ visit_expression 6 (.Call (.Identifier "g") [.Identifier "u"]) c5_env_g =
        some (.ok .Undefined, c5_env_g) := by
  refine ⟨?_, ?_, ?_, ?_, ?_, ?_, ?_, ?_, ?_, ?_, ?_, ?_, rfl⟩
  · intro fuel l r op env env1 e hop h
    rw [visit_operation]
    exact arith_left_err fuel l r op env env1 e hop h
  · intro fuel l r op env env1 env2 lv e hop h1 h2
    rw [visit_operation]
    exact arith_right_err fuel l r op env env1 env2 lv e hop h1 h2
  · intro fuel l r op env env1 e hop h
    rw [visit_operation]
    exact add_equal_left_err fuel l r op env env1 e hop h
  · intro fuel l r op env env1 env2 lv e hop h1 h2
    rw [visit_operation]
    exact add_equal_right_err fuel l r op env env1 env2 lv e hop h1 h2
  · intro fuel l r env env1 e h
    rw [visit_operation]
    exact expo_right_err fuel l r env env1 e h
  · intro fuel l r env env1 env2 rv q e h1 hc h2
    rw [visit_operation]
    exact expo_left_err fuel l r env env1 env2 rv q e h1 hc h2
  · intro fuel l r op env env1 e hop h
    rcases hop with h1 | h1 <;> subst h1
    · rw [visit_operation, op_and_dispatch]
      exact and_or_left_err fuel l r .And env env1 e h
    · rw [visit_operation, op_or_dispatch]
      exact and_or_left_err fuel l r .Or env env1 e h
  · intro fuel l r env env1 env2 v e h1 hb h2
    rw [visit_operation, op_and_dispatch]
    exact and_or_right_err_and fuel l r env env1 env2 v e h1 hb h2
  · intro fuel l r env env1 env2 v e h1 hb h2
    rw [visit_operation, op_or_dispatch]
    exact and_or_right_err_or fuel l r env env1 env2 v e h1 hb h2
  · intro fuel l r op env env1 env2 res1 res2 hop h1 h2 herr
    rcases hop with h | h <;> subst h
    · rw [visit_operation, op_lt_dispatch]
      exact comparators_operand_err fuel l r .LessThan env env1 env2 res1 res2
        h1 h2 herr
    · rw [visit_operation, op_gt_dispatch]
      exact comparators_operand_err fuel l r .GreaterThan env env1 env2 res1 res2
        h1 h2 herr
  · intro fuel op e1 env env1 e h
    rw [visit_prefix_dispatch]
    exact prefix_operand_err fuel op e1 env env1 e h
  · intro fuel id rhs env env1 e hv h
    exact assignment_rhs_err fuel id rhs env env1 e hv h

/-- Counterexample for C5 as stated: evaluating the identifier `u` in the
empty environment is an error, yet evaluating `u < 1` in the same
environment returns `Ok(Boolean(false))` — the failing sub-expression does
not fail the comparison. -/
theorem C5_counterexample :
    visit_expression 1 (.Identifier "u") Environment.new =
      some (.error (InterpreterErrorKind.ReferenceError "u").to_string,
            Environment.new)
    ∧ visit_expression 4
        (.Operation (.Identifier "u") .LessThan (.NumberLiteral (F64.ofInt 1)))
        Environment.new = some (.ok (.Boolean false), Environment.new) :=
  ⟨rfl, rfl⟩

/-- Witness for C5 at concrete input: `u * 1` with `u` unbound fails with
the `NaN` error (general arithmetic-propagation case), while `u < 1` yields
`Boolean(false)` (general comparator case). -/
theorem C5_operand_error_propagation_witness :
    visit_expression 3
      (.Operation (.Identifier "u") .Multiply (.NumberLiteral (F64.ofInt 1)))
      Environment.new =
      some (.error InterpreterErrorKind.NaN.to_string, Environment.new)
    ∧ visit_expression 4
        (.Operation (.Identifier "u") .LessThan (.NumberLiteral (F64.ofInt 1)))
        Environment.new = some (.ok (.Boolean false), Environment.new) := by
  constructor
  · exact C5_operand_error_propagation.1 1 (.Identifier "u")
      (.NumberLiteral (F64.ofInt 1)) .Multiply Environment.new Environment.new
      _ (Or.inl rfl) rfl
  · exact C5_operand_error_propagation.2.2.2.2.2.2.2.2.2.1 1 (.Identifier "u")
      (.NumberLiteral (F64.ofInt 1)) .LessThan Environment.new Environment.new
      Environment.new _ _ (Or.inl rfl) rfl rfl
      (Or.inl ⟨(InterpreterErrorKind.ReferenceError "u").to_string, rfl⟩)

/-! ## Return-value bubbling (claim C3) -/

theorem return_some_bubbles (fuel : Nat) (e : Expression) (env env1 : Environment)
    (v : ExpressionResult)
    (h : visit_expression fuel e env = some (.ok v, env1)) :
    visit_statement (fuel + 1) (.ReturnStatement (some e)) env =
      some (some v, env1) := by
  simp [visit_statement, h]

theorem return_none_bubbles (fuel : Nat) (env : Environment) :
    visit_statement (fuel + 1) (.ReturnStatement none) env =
      some (some .Undefined, env) := rfl

theorem run_stops_at_bubble (fuel : Nat) (s : Statement) (rest : List Statement)
    (env env1 : Environment) (v : ExpressionResult)
    (h : visit_statement fuel s env = some (some v, env1)) :
    run_statement_list (fuel + 1) (s :: rest) env = some (v, env1) := by
  simp [run_statement_list, h]

theorem conditional_discards_bubble (fuel : Nat) (c : Expression)
    (b : List Statement) (els : Option Statement) (env env1 env2 : Environment)
    (v : ExpressionResult) (res : Except String ExpressionResult)
    (hc : visit_expression fuel c env = some (.ok v, env1))
    (hb : v.coerce_to_bool = true)
    (hblock : execute_block fuel b env1.create_child_env = some (res, env2)) :
    visit_statement (fuel + 1) (.ConditionalStatement c b els) env =
      some (none, env1.merge_child_env env2) := by
  simp [visit_statement, hc, hb, hblock]

theorem while_discards_bubble (fuel : Nat) (c : Expression) (b : List Statement)
    (els : Option Statement) (env env1 env2 : Environment)
    (v : ExpressionResult) (res : Except String ExpressionResult)
    (hc : visit_expression fuel c env = some (.ok v, env1))
    (hb : v.coerce_to_bool = true)
    (hblock : execute_block fuel b env1.create_child_env = some (res, env2)) :
    visit_statement (fuel + 1) (.While (.ConditionalStatement c b els)) env =
      visit_statement fuel (.While (.ConditionalStatement c b els))
        (env1.merge_child_env env2) := by
  simp [visit_statement, hc, hb, hblock]

theorem call_returns_top_level_bubble (fuel : Nat) (f : Function)
    (env env1 : Environment) (v : ExpressionResult)
    (hargs : f.arguments = [])
    (hbody : process_statements fuel f.block env.create_child_env =
      some (v, env1)) :
    Function.call (fuel + 2) f [] env =
      some (.ok v, env.merge_child_env env1) := by
  rw [Function.call]
  simp [hargs, load_arguments, execute_block, hbody]

/-- Claim C3 (amended): a `ReturnStatement` always yields `Some` (the value,
or `Undefined` when the expression is absent), and that `Some` terminates
the enclosing statement sequence; when produced at the top level of a
function body it becomes the call's result.  But a `Some` produced inside a
taken conditional block is discarded (the `ConditionalStatement` bubble is
always `None`), and a `Some` produced inside a while-loop body is likewise
discarded while the loop continues iterating — so returns inside nested
blocks never reach the function-call frame. -/
theorem C3_return_bubbling_amended :
    (∀ (fuel : Nat) (e : Expression) (env env1 : Environment)
       (v : ExpressionResult),
       visit_expression fuel e env = some (.ok v, env1) →
       visit_statement (fuel + 1) (.ReturnStatement (some e)) env =
         some (some v, env1))
    ∧ (∀ (fuel : Nat) (env : Environment),
        visit_statement (fuel + 1) (.ReturnStatement none) env =
          some (some .Undefined, env))
    ∧ (∀ (fuel : Nat) (s : Statement) (rest : List Statement)
        (env env1 : Environment) (v : ExpressionResult),
        visit_statement fuel s env = some (some v, env1) →
        run_statement_list (fuel + 1) (s :: rest) env = some (v, env1))
    ∧ (∀ (fuel : Nat) (f : Function) (env env1 : Environment)
        (v : ExpressionResult), f.arguments = [] →
        process_statements fuel f.block env.create_child_env = some (v, env1) →
        Function.call (fuel + 2) f [] env =
          some (.ok v, env.merge_child_env env1))
    ∧ (∀ (fuel : Nat) (c : Expression) (b : List Statement)
        (els : Option Statement) (env env1 env2 : Environment)
        (v : ExpressionResult) (res : Except String ExpressionResult),
        visit_expression fuel c env = some (.ok v, env1) →
        v.coerce_to_bool = true →
        execute_block fuel b env1.create_child_env = some (res, env2) →
        visit_statement (fuel + 1) (.ConditionalStatement c b els) env =
          some (none, env1.merge_child_env env2))
    ∧ (∀ (fuel : Nat) (c : Expression) (b : List Statement)
        (els : Option Statement) (env env1 env2 : Environment)
        (v : ExpressionResult) (res : Except String ExpressionResult),
        visit_expression fuel c env = some (.ok v, env1) →
        v.coerce_to_bool = true →
        execute_block fuel b env1.create_child_env = some (res, env2) →
        visit_statement (fuel + 1) (.While (.ConditionalStatement c b els)) env =
          visit_statement fuel (.While (.ConditionalStatement c b els))
            (env1.merge_child_env env2)) :=
  ⟨return_some_bubbles, return_none_bubbles, run_stops_at_bubble,
   call_returns_top_level_bubble, conditional_discards_bubble,
   while_discards_bubble⟩

/-- A zero-parameter function whose body is `if (true) { return 1; }`. -/
def c3_fun : Function :=
  ⟨[], [.ConditionalStatement (.Boolean true)
          [.ReturnStatement (some (.NumberLiteral (F64.ofInt 1)))] none]⟩

/-- Counterexample for C3 as stated: the body of `c3_fun` returns `1` from
inside a conditional block, yet the call's result is `Undefined` — the
bubbled `Some(Number(1.0))` (visible at the inner statement) is discarded
by the enclosing `ConditionalStatement` instead of reaching the
function-call frame. -/
theorem C3_counterexample :
    visit_statement 2 (.ReturnStatement (some (.NumberLiteral (F64.ofInt 1))))
      (Environment.new.create_child_env.create_child_env) =
      some (some (.Number (F64.ofInt 1)),
            Environment.new.create_child_env.create_child_env)
    ∧ Function.call 10 c3_fun [] Environment.new =
        some (.ok .Undefined, Environment.new)
    ∧ (ExpressionResult.Undefined ≠ ExpressionResult.Number (F64.ofInt 1)) :=
  ⟨rfl, rfl, by decide⟩

/-- Witness for C3 (amended) at concrete input: a top-level `return 1;`
in a zero-parameter function does become the call's result. -/
theorem C3_return_bubbling_amended_witness :
    Function.call 6 ⟨[], [.ReturnStatement (some (.NumberLiteral (F64.ofInt 1)))]⟩
      [] Environment.new =
      some (.ok (.Number (F64.ofInt 1)), Environment.new) := by
  have h := C3_return_bubbling_amended.2.2.2.1 4
    ⟨[], [.ReturnStatement (some (.NumberLiteral (F64.ofInt 1)))]⟩
    Environment.new Environment.new.create_child_env (.Number (F64.ofInt 1))
    rfl (by rfl)
  exact h.trans (by rfl)

/-! ## The copy-down / write-back protocol (claim C1) -/

theorem lookupA_insertA {α : Type} (l : List (String × α)) (k k' : String)
    (v : α) :
    lookupA (insertA l k v) k' = if k' = k then some v else lookupA l k' := by
  induction l with
  | nil =>
    by_cases h : k' = k
    · subst h; simp [insertA, lookupA]
    · simp [insertA, lookupA, h, Ne.symm h]
  | cons kv rest ih =>
    rcases kv with ⟨k0, v0⟩
    by_cases h : k0 = k
    · subst h
      by_cases h2 : k' = k0
      · subst h2; simp [insertA, lookupA]
      · simp [insertA, lookupA, h2, Ne.symm h2]
    · by_cases h2 : k0 = k'
      · subst h2
        simp [insertA, lookupA, h]
      · simp [insertA, lookupA, h, h2, ih]

theorem get_variable_set (env : Environment) (k n : String)
    (v : ExpressionResult) :
    (env.set_variable k v).get_variable n =
      if n = k then some v else env.get_variable n := by
  unfold Environment.set_variable Environment.get_variable
  simp only [lookupA_insertA]
  by_cases h : n = k <;> simp [h]

theorem vars_set_other (env : Environment) (k : String) (v : ExpressionResult)
    (n : String) (h : n ≠ k) :
    lookupA (env.set_variable k v).vars n = lookupA env.vars n := by
  unfold Environment.set_variable
  simp [lookupA_insertA, h]

theorem get_variable_define (env : Environment) (k : String)
    (v : ExpressionResult) (n : String) :
    (env.define_variable k v).get_variable n =
      if n = k then some v else env.get_variable n := by
  unfold Environment.define_variable Environment.get_variable
  simp only [lookupA_insertA]
  by_cases h : n = k <;> simp [h]

theorem lookupA_map_snd {α β : Type} (f : α → β)
    (l : List (String × α)) (k : String) :
    lookupA (l.map (fun kv => (kv.1, f kv.2))) k = (lookupA l k).map f := by
  induction l with
  | nil => rfl
  | cons kv rest ih =>
    rcases kv with ⟨k0, v0⟩
    by_cases h : k0 = k <;> simp [lookupA, h, ih]

theorem get_variable_create_child (env : Environment) (n : String) :
    env.create_child_env.get_variable n = env.get_variable n := by
  unfold Environment.create_child_env Environment.get_variable
  rw [lookupA_map_snd (fun bv => (true, bv.2)) env.vars n]
  cases lookupA env.vars n with
  | none => rfl
  | some bv => rfl

/-- Reachable environments satisfy this invariant: every name recorded in
`modified_inherited_variables` has a value in `variables` (`set_variable`
inserts the binding whenever it records the name, and bindings are never
removed). -/
def Environment.modified_have_values (env : Environment) : Prop :=
  ∀ name ∈ env.modified_inherited_variables, (env.get_variable name).isSome

theorem mem_insertS (l : List String) (k n : String) :
    n ∈ insertS l k ↔ n ∈ l ∨ n = k := by
  by_cases h : k ∈ l
  · simp only [insertS, if_pos h]
    constructor
    · exact Or.inl
    · rintro (h1 | rfl)
      · exact h1
      · exact h
  · simp [insertS, if_neg h, List.mem_append]

theorem wf_set (env : Environment) (k : String) (v : ExpressionResult)
    (h : env.modified_have_values) :
    (env.set_variable k v).modified_have_values := by
  intro name hmem
  rw [get_variable_set]
  by_cases hk : name = k
  · simp [hk]
  · simp only [if_neg hk]
    have hold : name ∈ env.modified_inherited_variables := by
      unfold Environment.set_variable at hmem
      simp only at hmem
      by_cases hi : env.is_variable_greater_scope k
      · rw [if_pos hi] at hmem
        rcases (mem_insertS _ _ _).mp hmem with h1 | h1
        · exact h1
        · exact absurd h1 hk
      · rw [if_neg hi] at hmem
        exact hmem
    exact h name hold

theorem wf_define (env : Environment) (k : String) (v : ExpressionResult)
    (h : env.modified_have_values) :
    (env.define_variable k v).modified_have_values := by
  intro name hmem
  rw [get_variable_define]
  by_cases hk : name = k
  · simp [hk]
  · simp only [if_neg hk]
    exact h name hmem

theorem wf_create_child (env : Environment) (h : env.modified_have_values) :
    env.create_child_env.modified_have_values := by
  intro name hmem
  rw [get_variable_create_child]
  exact h name hmem

/-- A sequence of `define_variable` / `set_variable` operations, the only
mutations a block body performs on its scope through `let`, assignment,
compound assignment and increment/decrement. -/
inductive EnvOp where
  | defineOp (name : String) (value : ExpressionResult)
  | setOp (name : String) (value : ExpressionResult)

def applyEnvOps : List EnvOp → Environment → Environment
  | [], env => env
  | .defineOp n v :: rest, env => applyEnvOps rest (env.define_variable n v)
  | .setOp n v :: rest, env => applyEnvOps rest (env.set_variable n v)

theorem wf_applyEnvOps (ops : List EnvOp) (env : Environment)
    (h : env.modified_have_values) :
    (applyEnvOps ops env).modified_have_values := by
  induction ops generalizing env with
  | nil => exact h
  | cons op rest ih =>
    cases op with
    | defineOp n v => exact ih _ (wf_define env n v h)
    | setOp n v => exact ih _ (wf_set env n v h)

theorem merge_fold_get (C : Environment) (l : List String)
    (hl : ∀ n ∈ l, (C.get_variable n).isSome) (acc : Environment)
    (name : String) :
    (l.foldl (merge_write C) acc).get_variable name =
      if name ∈ l then C.get_variable name else acc.get_variable name := by
  induction l generalizing acc with
  | nil => simp
  | cons i rest ih =>
    have hi : (C.get_variable i).isSome := hl i (by simp)
    obtain ⟨r, hr⟩ := Option.isSome_iff_exists.mp hi
    have hrest : ∀ n ∈ rest, (C.get_variable n).isSome :=
      fun n hn => hl n (by simp [hn])
    simp only [List.foldl_cons]
    rw [show merge_write C acc i = acc.set_variable i r by
      simp [merge_write, hr]]
    rw [ih hrest]
    by_cases hmem : name ∈ rest
    · simp [hmem]
    · by_cases hname : name = i
      · subst hname
        simp [hmem, get_variable_set, hr]
      · simp [hmem, hname, get_variable_set]

theorem merge_fold_vars_other (C : Environment) (l : List String)
    (acc : Environment) (name : String) (h : name ∉ l) :
    lookupA (l.foldl (merge_write C) acc).vars name = lookupA acc.vars name := by
  induction l generalizing acc with
  | nil => rfl
  | cons i rest ih =>
    have h1 : name ≠ i := fun e => h (by simp [e])
    have h2 : name ∉ rest := fun hm => h (by simp [hm])
    simp only [List.foldl_cons]
    cases hC : C.get_variable i with
    | none =>
      rw [show merge_write C acc i = acc by simp [merge_write, hC]]
      exact ih _ h2
    | some r =>
      rw [show merge_write C acc i = acc.set_variable i r by
        simp [merge_write, hC]]
      rw [ih _ h2]
      exact vars_set_other acc i r name h1

/-- Claim C1: for a child `C = E.create_child_env()` mutated by any sequence
of `define_variable` / `set_variable` operations, `E.merge_child_env(C)`
writes back, via `set_variable`, exactly the names recorded in `C`'s
`modified_inherited_variables` (each receiving `C`'s current value for that
name); the binding of every name outside that set — in particular every
name declared in `C` via `define_variable` and never recorded — is left
unchanged in `E`.  The hypothesis `E.modified_have_values` holds of every
reachable environment (see its doc comment). -/
theorem C1_merge_child_env_protocol (E : Environment) (ops : List EnvOp)
    (hWf : E.modified_have_values) :
    (∀ name ∈ (applyEnvOps ops E.create_child_env).modified_inherited_variables,
       (E.merge_child_env (applyEnvOps ops E.create_child_env)).get_variable
         name = (applyEnvOps ops E.create_child_env).get_variable name)
    ∧ (∀ name,
        name ∉ (applyEnvOps ops E.create_child_env).modified_inherited_variables →
        lookupA (E.merge_child_env (applyEnvOps ops E.create_child_env)).vars
          name = lookupA E.vars name)
    ∧ (∀ name v, EnvOp.defineOp name v ∈ ops →
        name ∉ (applyEnvOps ops E.create_child_env).modified_inherited_variables →
        lookupA (E.merge_child_env (applyEnvOps ops E.create_child_env)).vars
          name = lookupA E.vars name) := by
  have hC : (applyEnvOps ops E.create_child_env).modified_have_values :=
    wf_applyEnvOps ops _ (wf_create_child E hWf)
  refine ⟨?_, ?_, ?_⟩
  · intro name hmem
    unfold Environment.merge_child_env
    rw [merge_fold_get _ _ hC E name]
    simp [hmem]
  · intro name hmem
    unfold Environment.merge_child_env
    exact merge_fold_vars_other _ _ E name hmem
  · intro name v _ hmem
    unfold Environment.merge_child_env
    exact merge_fold_vars_other _ _ E name hmem

/-- A parent with `x = 1`, and child operations `x = 2; let z = 3;`. -/
def c1_E : Environment := ⟨[("x", (false, .Number (F64.ofInt 1)))], [], []⟩

def c1_ops : List EnvOp :=
  [.setOp "x" (.Number (F64.ofInt 2)), .defineOp "z" (.Number (F64.ofInt 3))]

/-- Witness for C1 at concrete input: the recorded name `x` is written back
(the parent sees the child's value `2`), while the `let`-declared name `z`
never reaches the parent. -/
theorem C1_merge_child_env_protocol_witness :
    (c1_E.merge_child_env (applyEnvOps c1_ops c1_E.create_child_env)).get_variable
      "x" = (applyEnvOps c1_ops c1_E.create_child_env).get_variable "x"
    ∧ lookupA
        (c1_E.merge_child_env (applyEnvOps c1_ops c1_E.create_child_env)).vars
        "z" = lookupA c1_E.vars "z"
    ∧ (applyEnvOps c1_ops c1_E.create_child_env).get_variable "x" =
        some (.Number (F64.ofInt 2))
    ∧ lookupA c1_E.vars "z" = none := by
  have h := C1_merge_child_env_protocol c1_E c1_ops
    (by intro n hn; simp [c1_E] at hn)
  exact ⟨h.1 "x" (by decide), h.2.1 "z" (by decide), rfl, rfl⟩

/-! ## `parse_primary` totality analysis (claim C10)

`parse_primary` itself never constructs a `ParserError` (its result type has
no error channel), but its identifier-call arm re-enters `parse_arguments`,
whose `while !expect(RightParen)` loop never terminates when the argument
list is never closed: past the end of the token vector every lookup is
`EOF`, so `expect(RightParen)` keeps failing while `parse_expression` keeps
consuming the `EOF` fallback.  The lemmas below walk the whole expression
chain at an exhausted cursor to establish that divergence. -/

/-- Whether `parse_primary` ever returns on a given parser state (with any
amount of fuel). -/
def parse_primary_halts (p : Parser) : Prop :=
  ∃ fuel result, Parser.parse_primary fuel p = some result

/-- The token stream of the source fragment `f(` — an identifier opening an
argument list that is never closed. -/
def toks_unclosed_call : List Token := [.Ident "f", .LeftParen, .EOF]

theorem unclosed_getTok (pos : Nat) (h : 2 ≤ pos) :
    getTokenOrEOF toks_unclosed_call pos = .EOF := by
  match pos, h with
  | 2, _ => rfl
  | n + 3, _ =>
    unfold getTokenOrEOF toks_unclosed_call
    rw [List.get?_eq_none.mpr (by simp)]
    rfl

theorem unclosed_skip (pos : Nat) (h : 2 ≤ pos) :
    (⟨toks_unclosed_call, pos⟩ : Parser).skip_new_lines =
      ⟨toks_unclosed_call, pos⟩ := by
  unfold Parser.skip_new_lines
  match pos, h with
  | 2, _ => rfl
  | n + 3, _ =>
    simp only
    rw [show toks_unclosed_call.drop (n + 3) = [] from
      List.drop_eq_nil_of_le (by simp [toks_unclosed_call])]
    rfl

theorem unclosed_peek (pos : Nat) (h : 2 ≤ pos) :
    (⟨toks_unclosed_call, pos⟩ : Parser).peek =
      (.EOF, ⟨toks_unclosed_call, pos⟩) := by
  unfold Parser.peek
  rw [unclosed_skip pos h]
  show (getTokenOrEOF toks_unclosed_call pos,
    (⟨toks_unclosed_call, pos⟩ : Parser)) = _
  rw [unclosed_getTok pos h]

theorem unclosed_advance (pos : Nat) (h : 2 ≤ pos) :
    (⟨toks_unclosed_call, pos⟩ : Parser).advance =
      (.EOF, ⟨toks_unclosed_call, pos + 1⟩) := by
  unfold Parser.advance
  rw [unclosed_peek pos h]

theorem unclosed_expect (pos : Nat) (t : Token) (h : 2 ≤ pos)
    (ht : t ≠ .EOF) :
    (⟨toks_unclosed_call, pos⟩ : Parser).expect t =
      (false, ⟨toks_unclosed_call, pos⟩) := by
  unfold Parser.expect
  rw [unclosed_peek pos h]
  simp [Ne.symm ht]

theorem unclosed_expect_next (pos : Nat) (t0 : Token) (rest : List Token)
    (h : 2 ≤ pos) (ht : t0 ≠ .EOF) :
    (⟨toks_unclosed_call, pos⟩ : Parser).expect_next_n (t0 :: rest) =
      (false, ⟨toks_unclosed_call, pos⟩) := by
  unfold Parser.expect_next_n expectNextNAux
  have : (⟨toks_unclosed_call, pos⟩ : Parser).peek_at (pos + 0) = .EOF := by
    unfold Parser.peek_at
    exact unclosed_getTok pos h
  simp only [this]
  simp [Ne.symm ht]

theorem unclosed_primary (fuel pos : Nat) (h : 2 ≤ pos) :
    Parser.parse_primary fuel ⟨toks_unclosed_call, pos⟩ = none ∨
    Parser.parse_primary fuel ⟨toks_unclosed_call, pos⟩ =
      some (.NumberLiteral (F64.ofInt 0), ⟨toks_unclosed_call, pos + 1⟩) := by
  match fuel with
  | 0 => exact Or.inl rfl
  | fuel + 1 =>
    right
    simp [Parser.parse_primary, unclosed_advance pos h]

theorem unclosed_sub_expression (fuel pos : Nat) (h : 2 ≤ pos) :
    Parser.parse_sub_expression fuel ⟨toks_unclosed_call, pos⟩ = none ∨
    Parser.parse_sub_expression fuel ⟨toks_unclosed_call, pos⟩ =
      some (.NumberLiteral (F64.ofInt 0), ⟨toks_unclosed_call, pos + 1⟩) := by
  match fuel with
  | 0 => exact Or.inl rfl
  | fuel + 1 =>
    rcases unclosed_primary fuel pos h with h1 | h1 <;> [left; right] <;>
      simp [Parser.parse_sub_expression, unclosed_peek pos h, h1]

theorem unclosed_unary (fuel pos : Nat) (h : 2 ≤ pos) :
    Parser.parse_unary fuel ⟨toks_unclosed_call, pos⟩ = none ∨
    Parser.parse_unary fuel ⟨toks_unclosed_call, pos⟩ =
      some (.NumberLiteral (F64.ofInt 0), ⟨toks_unclosed_call, pos + 1⟩) := by
  match fuel with
  | 0 => exact Or.inl rfl
  | fuel + 1 =>
    rcases unclosed_sub_expression fuel pos h with h1 | h1 <;> [left; right] <;>
      simp [Parser.parse_unary, unclosed_peek pos h, h1]

theorem unclosed_expo_loop (fuel pos : Nat) (e : Expression) (h : 2 ≤ pos) :
    Parser.parse_exponentiation_loop fuel e ⟨toks_unclosed_call, pos⟩ = none ∨
    Parser.parse_exponentiation_loop fuel e ⟨toks_unclosed_call, pos⟩ =
      some (e, ⟨toks_unclosed_call, pos⟩) := by
  match fuel with
  | 0 => exact Or.inl rfl
  | fuel + 1 =>
    right
    simp [Parser.parse_exponentiation_loop,
      unclosed_expect_next pos .Star [.Star] h (by decide)]

theorem unclosed_expo (fuel pos : Nat) (h : 2 ≤ pos) :
    Parser.parse_exponentiation fuel ⟨toks_unclosed_call, pos⟩ = none ∨
    Parser.parse_exponentiation fuel ⟨toks_unclosed_call, pos⟩ =
      some (.NumberLiteral (F64.ofInt 0), ⟨toks_unclosed_call, pos + 1⟩) := by
  match fuel with
  | 0 => exact Or.inl rfl
  | fuel + 1 =>
    rcases unclosed_unary fuel pos h with h1 | h1
    · exact Or.inl (by simp [Parser.parse_exponentiation, h1])
    · rcases unclosed_expo_loop fuel (pos + 1) (.NumberLiteral (F64.ofInt 0))
        (by omega) with h2 | h2 <;> [left; right] <;>
        simp [Parser.parse_exponentiation, h1, h2]

theorem unclosed_factor_loop (fuel pos : Nat) (e : Expression) (h : 2 ≤ pos) :
    Parser.parse_factor_loop fuel e ⟨toks_unclosed_call, pos⟩ = none ∨
    Parser.parse_factor_loop fuel e ⟨toks_unclosed_call, pos⟩ =
      some (e, ⟨toks_unclosed_call, pos⟩) := by
  match fuel with
  | 0 => exact Or.inl rfl
  | fuel + 1 =>
    right
    simp [Parser.parse_factor_loop, unclosed_peek pos h]

theorem unclosed_factor (fuel pos : Nat) (h : 2 ≤ pos) :
    Parser.parse_factor fuel ⟨toks_unclosed_call, pos⟩ = none ∨
    Parser.parse_factor fuel ⟨toks_unclosed_call, pos⟩ =
      some (.NumberLiteral (F64.ofInt 0), ⟨toks_unclosed_call, pos + 1⟩) := by
  match fuel with
  | 0 => exact Or.inl rfl
  | fuel + 1 =>
    rcases unclosed_expo fuel pos h with h1 | h1
    · exact Or.inl (by simp [Parser.parse_factor, h1])
    · rcases unclosed_factor_loop fuel (pos + 1) (.NumberLiteral (F64.ofInt 0))
        (by omega) with h2 | h2 <;> [left; right] <;>
        simp [Parser.parse_factor, h1, h2]

theorem unclosed_term_loop (fuel pos : Nat) (e : Expression) (h : 2 ≤ pos) :
    Parser.parse_term_loop fuel e ⟨toks_unclosed_call, pos⟩ = none ∨
    Parser.parse_term_loop fuel e ⟨toks_unclosed_call, pos⟩ =
      some (e, ⟨toks_unclosed_call, pos⟩) := by
  match fuel with
  | 0 => exact Or.inl rfl
  | fuel + 1 =>
    right
    simp [Parser.parse_term_loop, unclosed_peek pos h]

theorem unclosed_term (fuel pos : Nat) (h : 2 ≤ pos) :
    Parser.parse_term fuel ⟨toks_unclosed_call, pos⟩ = none ∨
    Parser.parse_term fuel ⟨toks_unclosed_call, pos⟩ =
      some (.NumberLiteral (F64.ofInt 0), ⟨toks_unclosed_call, pos + 1⟩) := by
  match fuel with
  | 0 => exact Or.inl rfl
  | fuel + 1 =>
    rcases unclosed_factor fuel pos h with h1 | h1
    · exact Or.inl (by simp [Parser.parse_term, h1])
    · rcases unclosed_term_loop fuel (pos + 1) (.NumberLiteral (F64.ofInt 0))
        (by omega) with h2 | h2 <;> [left; right] <;>
        simp [Parser.parse_term, h1, h2]

theorem unclosed_comparator_loop (fuel pos : Nat) (e : Expression)
    (h : 2 ≤ pos) :
    Parser.parse_comparator_loop fuel e ⟨toks_unclosed_call, pos⟩ = none ∨
    Parser.parse_comparator_loop fuel e ⟨toks_unclosed_call, pos⟩ =
      some (e, ⟨toks_unclosed_call, pos⟩) := by
  match fuel with
  | 0 => exact Or.inl rfl
  | fuel + 1 =>
    right
    simp [Parser.parse_comparator_loop, unclosed_peek pos h]

theorem unclosed_comparator (fuel pos : Nat) (h : 2 ≤ pos) :
    Parser.parse_comparator fuel ⟨toks_unclosed_call, pos⟩ = none ∨
    Parser.parse_comparator fuel ⟨toks_unclosed_call, pos⟩ =
      some (.NumberLiteral (F64.ofInt 0), ⟨toks_unclosed_call, pos + 1⟩) := by
  match fuel with
  | 0 => exact Or.inl rfl
  | fuel + 1 =>
    rcases unclosed_term fuel pos h with h1 | h1
    · exact Or.inl (by simp [Parser.parse_comparator, h1])
    · rcases unclosed_comparator_loop fuel (pos + 1)
        (.NumberLiteral (F64.ofInt 0)) (by omega) with h2 | h2 <;>
        [left; right] <;> simp [Parser.parse_comparator, h1, h2]

theorem unclosed_equality_loop (fuel pos : Nat) (e : Expression) (h : 2 ≤ pos) :
    Parser.parse_equality_loop fuel e ⟨toks_unclosed_call, pos⟩ = none ∨
    Parser.parse_equality_loop fuel e ⟨toks_unclosed_call, pos⟩ =
      some (e, ⟨toks_unclosed_call, pos⟩) := by
  match fuel with
  | 0 => exact Or.inl rfl
  | fuel + 1 =>
    right
    simp [Parser.parse_equality_loop,
      unclosed_expect_next pos .Equals [.Equals] h (by decide),
      unclosed_expect_next pos .ExclamationMark [.Equals] h (by decide)]

theorem unclosed_equality (fuel pos : Nat) (h : 2 ≤ pos) :
    Parser.parse_equality fuel ⟨toks_unclosed_call, pos⟩ = none ∨
    Parser.parse_equality fuel ⟨toks_unclosed_call, pos⟩ =
      some (.NumberLiteral (F64.ofInt 0), ⟨toks_unclosed_call, pos + 1⟩) := by
  match fuel with
  | 0 => exact Or.inl rfl
  | fuel + 1 =>
    rcases unclosed_comparator fuel pos h with h1 | h1
    · exact Or.inl (by simp [Parser.parse_equality, h1])
    · rcases unclosed_equality_loop fuel (pos + 1)
        (.NumberLiteral (F64.ofInt 0)) (by omega) with h2 | h2 <;>
        [left; right] <;> simp [Parser.parse_equality, h1, h2]

theorem unclosed_and_loop (fuel pos : Nat) (e : Expression) (h : 2 ≤ pos) :
    Parser.parse_logical_and_loop fuel e ⟨toks_unclosed_call, pos⟩ = none ∨
    Parser.parse_logical_and_loop fuel e ⟨toks_unclosed_call, pos⟩ =
      some (e, ⟨toks_unclosed_call, pos⟩) := by
  match fuel with
  | 0 => exact Or.inl rfl
  | fuel + 1 =>
    right
    simp [Parser.parse_logical_and_loop, unclosed_peek pos h]

theorem unclosed_and (fuel pos : Nat) (h : 2 ≤ pos) :
    Parser.parse_logical_and fuel ⟨toks_unclosed_call, pos⟩ = none ∨
    Parser.parse_logical_and fuel ⟨toks_unclosed_call, pos⟩ =
      some (.NumberLiteral (F64.ofInt 0), ⟨toks_unclosed_call, pos + 1⟩) := by
  match fuel with
  | 0 => exact Or.inl rfl
  | fuel + 1 =>
    rcases unclosed_equality fuel pos h with h1 | h1
    · exact Or.inl (by simp [Parser.parse_logical_and, h1])
    · rcases unclosed_and_loop fuel (pos + 1) (.NumberLiteral (F64.ofInt 0))
        (by omega) with h2 | h2 <;> [left; right] <;>
        simp [Parser.parse_logical_and, h1, h2]

theorem unclosed_or_loop (fuel pos : Nat) (e : Expression) (h : 2 ≤ pos) :
    Parser.parse_logical_or_loop fuel e ⟨toks_unclosed_call, pos⟩ = none ∨
    Parser.parse_logical_or_loop fuel e ⟨toks_unclosed_call, pos⟩ =
      some (e, ⟨toks_unclosed_call, pos⟩) := by
  match fuel with
  | 0 => exact Or.inl rfl
  | fuel + 1 =>
    right
    simp [Parser.parse_logical_or_loop, unclosed_peek pos h]

theorem unclosed_or (fuel pos : Nat) (h : 2 ≤ pos) :
    Parser.parse_logical_or fuel ⟨toks_unclosed_call, pos⟩ = none ∨
    Parser.parse_logical_or fuel ⟨toks_unclosed_call, pos⟩ =
      some (.NumberLiteral (F64.ofInt 0), ⟨toks_unclosed_call, pos + 1⟩) := by
  match fuel with
  | 0 => exact Or.inl rfl
  | fuel + 1 =>
    rcases unclosed_and fuel pos h with h1 | h1
    · exact Or.inl (by simp [Parser.parse_logical_or, h1])
    · rcases unclosed_or_loop fuel (pos + 1) (.NumberLiteral (F64.ofInt 0))
        (by omega) with h2 | h2 <;> [left; right] <;>
        simp [Parser.parse_logical_or, h1, h2]

theorem unclosed_assignment (fuel pos : Nat) (h : 2 ≤ pos) :
    Parser.parse_assignment fuel ⟨toks_unclosed_call, pos⟩ = none ∨
    Parser.parse_assignment fuel ⟨toks_unclosed_call, pos⟩ =
      some (.NumberLiteral (F64.ofInt 0), ⟨toks_unclosed_call, pos + 1⟩) := by
  match fuel with
  | 0 => exact Or.inl rfl
  | fuel + 1 =>
    rcases unclosed_or fuel pos h with h1 | h1
    · exact Or.inl (by simp [Parser.parse_assignment, h1])
    · right
      have h2 : 2 ≤ pos + 1 := by omega
      simp [Parser.parse_assignment, h1,
        unclosed_expect_next (pos + 1) .Star [.Equals] h2 (by decide),
        unclosed_expect_next (pos + 1) .Slash [.Equals] h2 (by decide),
        unclosed_expect_next (pos + 1) .Plus [.Equals] h2 (by decide),
        unclosed_expect_next (pos + 1) .Minus [.Equals] h2 (by decide),
        unclosed_peek (pos + 1) h2]

theorem unclosed_expression (fuel pos : Nat) (h : 2 ≤ pos) :
    Parser.parse_expression fuel ⟨toks_unclosed_call, pos⟩ = none ∨
    Parser.parse_expression fuel ⟨toks_unclosed_call, pos⟩ =
      some (.NumberLiteral (F64.ofInt 0), ⟨toks_unclosed_call, pos + 1⟩) := by
  match fuel with
  | 0 => exact Or.inl rfl
  | fuel + 1 =>
    rcases unclosed_assignment fuel pos h with h1 | h1 <;> [left; right] <;>
      simp [Parser.parse_expression, h1]

/-- The `while !expect(RightParen)` loop of `parse_arguments` never
terminates on the exhausted cursor (for every fuel the result is `none`). -/
theorem unclosed_arguments (fuel : Nat) : ∀ pos, 2 ≤ pos →
    Parser.parse_arguments fuel ⟨toks_unclosed_call, pos⟩ = none := by
  induction fuel with
  | zero => intro pos _; rfl
  | succ fuel ih =>
    intro pos h
    rcases unclosed_expression fuel pos h with h1 | h1
    · simp [Parser.parse_arguments,
        unclosed_expect pos .RightParen h (by decide), unclosed_peek pos h, h1]
    · simp [Parser.parse_arguments,
        unclosed_expect pos .RightParen h (by decide), unclosed_peek pos h, h1,
        ih (pos + 1) (by omega)]

theorem unclosed_primary_diverges (fuel : Nat) :
    Parser.parse_primary fuel ⟨toks_unclosed_call, 0⟩ = none := by
  match fuel with
  | 0 => rfl
  | fuel + 1 =>
    have hadv : (⟨toks_unclosed_call, 0⟩ : Parser).advance =
        (.Ident "f", ⟨toks_unclosed_call, 1⟩) := rfl
    have hpk : (⟨toks_unclosed_call, 1⟩ : Parser).peek =
        (.LeftParen, ⟨toks_unclosed_call, 1⟩) := rfl
    have hadv2 : (⟨toks_unclosed_call, 1⟩ : Parser).advance =
        (.LeftParen, ⟨toks_unclosed_call, 2⟩) := rfl
    simp [Parser.parse_primary, hadv, hpk, hadv2,
      unclosed_arguments fuel 2 (by omega)]

/-- Counterexample for C10 as stated: on the token stream `Ident "f",
LeftParen, EOF` — an identifier opening an argument list that is never
closed — `parse_primary` never returns, for any amount of fuel: it is not
total. -/
theorem C10_counterexample :
    ¬ parse_primary_halts ⟨toks_unclosed_call, 0⟩ := by
  rintro ⟨fuel, result, hres⟩
  rw [unclosed_primary_diverges fuel] at hres
  exact Option.noConfusion hres

/-- The tokens on which `parse_primary` silently falls back to
`NumberLiteral(0.0)`: anything that is not a number, identifier, boolean or
double quote. -/
def primary_fallback_token : Token → Bool
  | .Number _ => false
  | .Ident _ => false
  | .Boolean _ => false
  | .DoubleQuote => false
  | _ => true

/-- Claim C10 (amended): `parse_primary` never reports a `ParserError` (its
result type has no error outlet); when the consumed token is none of
number, identifier, boolean or double quote it silently returns the
fallback `NumberLiteral(0.0)`, and a double quote not followed by a string
token likewise falls back to `NumberLiteral(0.0)`; it returns an
`Expression` whenever the consumed token is not an identifier, and for an
identifier not followed by a left parenthesis it returns that identifier —
but it is not total: an identifier followed by a never-closed argument list
makes it loop forever (see the counterexample). -/
theorem C10_parse_primary_fallback :
    (∀ (fuel : Nat) (p p1 : Parser) (t : Token), p.advance = (t, p1) →
       primary_fallback_token t = true →
       Parser.parse_primary (fuel + 1) p =
         some (.NumberLiteral (F64.ofInt 0), p1))
    ∧ (∀ (fuel : Nat) (p p1 p2 : Parser) (t2 : Token),
        p.advance = (.DoubleQuote, p1) → p1.advance = (t2, p2) →
        (∀ s, t2 ≠ .String s) →
        ∃ p', Parser.parse_primary (fuel + 1) p =
          some (.NumberLiteral (F64.ofInt 0), p'))
    ∧ (∀ (fuel : Nat) (p p1 : Parser) (t : Token), p.advance = (t, p1) →
        (∀ name, t ≠ .Ident name) →
        ∃ e p', Parser.parse_primary (fuel + 1) p = some (e, p'))
    ∧ (∀ (fuel : Nat) (p p1 p2 : Parser) (name : String) (t2 : Token),
        p.advance = (.Ident name, p1) → p1.peek = (t2, p2) →
        t2 ≠ .LeftParen →
        Parser.parse_primary (fuel + 1) p = some (.Identifier name, p2)) := by
  refine ⟨?_, ?_, ?_, ?_⟩
  · intro fuel p p1 t hadv hfb
    cases t <;> simp_all [Parser.parse_primary, primary_fallback_token]
  · intro fuel p p1 p2 t2 hadv hadv2 hnots
    rcases hpk : p2.peek with ⟨t3, p3⟩
    cases t2 <;> simp_all [Parser.parse_primary] <;>
      split <;> exact ⟨_, rfl⟩
  · intro fuel p p1 t hadv hid
    cases t <;> simp_all [Parser.parse_primary] <;>
      split <;> exact ⟨_, _, rfl⟩
  · intro fuel p p1 p2 name t2 hadv hpk ht2
    cases t2 <;> simp_all [Parser.parse_primary]

/-- Witness for C10 (amended) at concrete input: consuming a `Plus` token
falls back to `NumberLiteral(0.0)`. -/
theorem C10_parse_primary_fallback_witness :
    Parser.parse_primary 1 ⟨[Token.Plus], 0⟩ =
      some (.NumberLiteral (F64.ofInt 0), ⟨[Token.Plus], 1⟩) :=
  C10_parse_primary_fallback.1 0 ⟨[Token.Plus], 0⟩ ⟨[Token.Plus], 1⟩
    Token.Plus rfl rfl

end ToyJs
